import Mathlib

/-!
Shallow embedding of the fat32expander resize core (Rust) in Lean 4.

Bytes are modelled as `Nat` values (< 256 on real data); multi-byte fields are
little-endian, decoded with explicit radix-256 arithmetic.  Machine integers
(`u8`/`u16`/`u32`/`u64`) are modelled as `Nat`; every arithmetic operation in
the source either cannot overflow on the values involved or is a bitwise
operation that stays below the relevant bound, so no wrap-around modelling is
needed; truncating `Nat` subtraction is used where the source subtracts (the
claims' theorems carry hypotheses ruling out the underflow cases, which would
panic in the source).  Fallible Rust functions returning `Result` are modelled
as `Except Error`.
-/

namespace FAT32

/-- Error taxonomy from `src/error.rs`.  Message payloads (strings) are elided;
only the constructor identity matters for the claims. -/
inductive Error where
  | BootSectorValidation
  | FSInfoValidation
  | InvalidFAT32
  | UnsupportedSectorSize
  | BackupMismatch
  | Calculation
  | ShrinkNotSupported
  | AlreadyMaxSize
  | CheckpointCorrupted
  | InvalidatedFilesystem
  | ResizeSizeMismatch (phase : Nat)
  | Io
  deriving Repr, DecidableEq

/-- Little-endian u16 read at a byte offset (`u16::from_le_bytes`). -/
def readLe16 (l : List Nat) (off : Nat) : Nat :=
  l.getD off 0 + 256 * l.getD (off + 1) 0

/-- Little-endian u32 read at a byte offset (`u32::from_le_bytes`). -/
def readLe32 (l : List Nat) (off : Nat) : Nat :=
  l.getD off 0 + 256 * l.getD (off + 1) 0 + 65536 * l.getD (off + 2) 0 +
    16777216 * l.getD (off + 3) 0

/-- `u16::to_le_bytes`. -/
def le16Bytes (n : Nat) : List Nat :=
  [n % 256, n / 256 % 256]

/-- `u32::to_le_bytes`. -/
def le32Bytes (n : Nat) : List Nat :=
  [n % 256, n / 256 % 256, n / 65536 % 256, n / 16777216 % 256]

/-- `slice[off..off+bs.len()].copy_from_slice(bs)`: splice `bs` into `l` at
offset `off`.  Faithful to the source whenever `off + bs.length ≤ l.length`
(the source panics otherwise; the theorems' hypotheses keep indices in range). -/
def writeBytesIn (l : List Nat) (off : Nat) (bs : List Nat) : List Nat :=
  l.take off ++ bs ++ l.drop (off + bs.length)

/-- Rust `u64::div_ceil` / `u32::div_ceil`: quotient plus one when there is a
remainder.  (For divisor 0 the source panics; the model returns `if a = 0 then 0
else 1`; all uses are guarded by divisor-nonzero hypotheses or checks.) -/
def divCeil (a b : Nat) : Nat :=
  a / b + (if a % b = 0 then 0 else 1)

/-- `u8::is_power_of_two` (count_ones == 1), executable model. -/
def isPowerOfTwoNat (n : Nat) : Bool :=
  n ≠ 0 && n &&& (n - 1) == 0

/-! ### FAT entry helpers (`src/fat32/structs.rs`, mod `fat_entry`) -/

namespace fat_entry

/-- Mask for valid cluster bits (lower 28 bits). -/
def CLUSTER_MASK : Nat := 0x0FFFFFFF

/-- Check if a FAT entry is free. -/
def is_free (entry : Nat) : Bool :=
  entry &&& CLUSTER_MASK == 0

end fat_entry

/-! ### Boot sector (`src/fat32/structs.rs`, `BootSector`) -/

/-- `BootSector`: owns the full raw sector bytes. -/
structure BootSector where
  raw : List Nat
  deriving Repr, DecidableEq

/-- `BootSector::from_bytes`: requires at least 512 bytes, stores the buffer in
full, performs no content validation. -/
def BootSector.from_bytes (bytes : List Nat) : Except Error BootSector :=
  if bytes.length < 512 then .error .BootSectorValidation
  else .ok ⟨bytes⟩

def BootSector.as_bytes (b : BootSector) : List Nat := b.raw

def BootSector.bytes_per_sector (b : BootSector) : Nat := readLe16 b.raw 11

def BootSector.sectors_per_cluster (b : BootSector) : Nat := b.raw.getD 13 0

def BootSector.reserved_sectors (b : BootSector) : Nat := readLe16 b.raw 14

def BootSector.num_fats (b : BootSector) : Nat := b.raw.getD 16 0

def BootSector.root_entry_count (b : BootSector) : Nat := readLe16 b.raw 17

def BootSector.total_sectors_16 (b : BootSector) : Nat := readLe16 b.raw 19

def BootSector.media_type (b : BootSector) : Nat := b.raw.getD 21 0

def BootSector.fat_size_16 (b : BootSector) : Nat := readLe16 b.raw 22

def BootSector.total_sectors_32 (b : BootSector) : Nat := readLe32 b.raw 32

def BootSector.set_total_sectors_32 (b : BootSector) (sectors : Nat) : BootSector :=
  ⟨writeBytesIn b.raw 32 (le32Bytes sectors)⟩

def BootSector.fat_size_32 (b : BootSector) : Nat := readLe32 b.raw 36

def BootSector.set_fat_size_32 (b : BootSector) (size : Nat) : BootSector :=
  ⟨writeBytesIn b.raw 36 (le32Bytes size)⟩

def BootSector.root_cluster (b : BootSector) : Nat := readLe32 b.raw 44

def BootSector.fs_info_sector (b : BootSector) : Nat := readLe16 b.raw 48

def BootSector.backup_boot_sector (b : BootSector) : Nat := readLe16 b.raw 50

def BootSector.boot_signature (b : BootSector) : Nat := readLe16 b.raw 510

def BootSector.VALID_SIGNATURE : Nat := 0xAA55

def BootSector.is_signature_valid (b : BootSector) : Bool :=
  b.boot_signature == BootSector.VALID_SIGNATURE

/-- Zero bytes 510..511. -/
def BootSector.invalidate_signature (b : BootSector) : BootSector :=
  ⟨writeBytesIn b.raw 510 [0, 0]⟩

/-- Write 0xAA55 (little-endian) at bytes 510..511. -/
def BootSector.restore_signature (b : BootSector) : BootSector :=
  ⟨writeBytesIn b.raw 510 (le16Bytes BootSector.VALID_SIGNATURE)⟩

/-- Prefers the 32-bit count, falls back to the 16-bit count. -/
def BootSector.total_sectors (b : BootSector) : Nat :=
  if b.total_sectors_16 = 0 then b.total_sectors_32 else b.total_sectors_16

def BootSector.fat_size (b : BootSector) : Nat :=
  if b.fat_size_16 = 0 then b.fat_size_32 else b.fat_size_16

def BootSector.first_fat_sector (b : BootSector) : Nat := b.reserved_sectors

def BootSector.first_data_sector (b : BootSector) : Nat :=
  let root_dir_sectors := divCeil (b.root_entry_count * 32) b.bytes_per_sector
  b.reserved_sectors + b.num_fats * b.fat_size + root_dir_sectors

def BootSector.data_sectors (b : BootSector) : Nat :=
  let root_dir_sectors := divCeil (b.root_entry_count * 32) b.bytes_per_sector
  b.total_sectors - b.reserved_sectors - b.num_fats * b.fat_size - root_dir_sectors

def BootSector.data_clusters (b : BootSector) : Nat :=
  b.data_sectors / b.sectors_per_cluster

def BootSector.cluster_to_sector (b : BootSector) (cluster : Nat) : Nat :=
  b.first_data_sector + (cluster - 2) * b.sectors_per_cluster

def BootSector.bytes_per_cluster (b : BootSector) : Nat :=
  b.bytes_per_sector * b.sectors_per_cluster

/-! ### FSInfo sector (`src/fat32/structs.rs`, `FSInfo`) -/

/-- `FSInfo`: owns the full raw sector bytes. -/
structure FSInfo where
  raw : List Nat
  deriving Repr, DecidableEq

def FSInfo.LEAD_SIG : Nat := 0x41615252

def FSInfo.STRUC_SIG : Nat := 0x61417272

def FSInfo.TRAIL_SIG : Nat := 0xAA550000

def FSInfo.UNKNOWN_FREE : Nat := 0xFFFFFFFF

def FSInfo.from_bytes (bytes : List Nat) : Except Error FSInfo :=
  if bytes.length < 512 then .error .FSInfoValidation
  else .ok ⟨bytes⟩

def FSInfo.as_bytes (f : FSInfo) : List Nat := f.raw

def FSInfo.lead_sig (f : FSInfo) : Nat := readLe32 f.raw 0

def FSInfo.struc_sig (f : FSInfo) : Nat := readLe32 f.raw 484

def FSInfo.free_count (f : FSInfo) : Nat := readLe32 f.raw 488

def FSInfo.set_free_count (f : FSInfo) (count : Nat) : FSInfo :=
  ⟨writeBytesIn f.raw 488 (le32Bytes count)⟩

def FSInfo.trail_sig (f : FSInfo) : Nat := readLe32 f.raw 508

/-! ### Validation (`src/fat32/validation.rs`) -/

/-- `validate_boot_sector_impl`. -/
def validate_boot_sector_impl (boot : BootSector) (allow_invalidated : Bool) :
    Except Error Unit :=
  let sig := boot.boot_signature
  if sig ≠ 0xAA55 ∧ ¬(allow_invalidated = true ∧ sig = 0) then
    .error .BootSectorValidation
  else if ¬([512, 1024, 2048, 4096].contains boot.bytes_per_sector) then
    .error .BootSectorValidation
  else if boot.sectors_per_cluster = 0 ∨ ¬(isPowerOfTwoNat boot.sectors_per_cluster) ∨
      boot.sectors_per_cluster > 128 then
    .error .BootSectorValidation
  else if boot.reserved_sectors = 0 then .error .BootSectorValidation
  else if boot.num_fats = 0 ∨ boot.num_fats > 2 then .error .BootSectorValidation
  else if boot.root_entry_count ≠ 0 then .error .InvalidFAT32
  else if boot.total_sectors_16 ≠ 0 then .error .InvalidFAT32
  else if boot.fat_size_16 ≠ 0 then .error .InvalidFAT32
  else if boot.total_sectors_32 = 0 then .error .BootSectorValidation
  else if boot.fat_size_32 = 0 then .error .BootSectorValidation
  else if boot.root_cluster < 2 then .error .BootSectorValidation
  else if boot.media_type ≠ 0xF0 ∧ ¬(0xF8 ≤ boot.media_type ∧ boot.media_type ≤ 0xFF) then
    .error .BootSectorValidation
  else if boot.data_clusters < 65525 then .error .InvalidFAT32
  else .ok ()

def validate_boot_sector (boot : BootSector) : Except Error Unit :=
  validate_boot_sector_impl boot false

def validate_boot_sector_for_recovery (boot : BootSector) : Except Error Unit :=
  validate_boot_sector_impl boot true

/-- `validate_fsinfo`: the three signatures must match exactly. -/
def validate_fsinfo (fsinfo : FSInfo) : Except Error Unit :=
  if fsinfo.lead_sig ≠ FSInfo.LEAD_SIG then .error .FSInfoValidation
  else if fsinfo.struc_sig ≠ FSInfo.STRUC_SIG then .error .FSInfoValidation
  else if fsinfo.trail_sig ≠ FSInfo.TRAIL_SIG then .error .FSInfoValidation
  else .ok ()

/-- `boot_sectors_match`: geometry-field comparison. -/
def boot_sectors_match (primary backup : BootSector) : Bool :=
  primary.bytes_per_sector == backup.bytes_per_sector &&
  primary.sectors_per_cluster == backup.sectors_per_cluster &&
  primary.reserved_sectors == backup.reserved_sectors &&
  primary.num_fats == backup.num_fats &&
  primary.total_sectors_32 == backup.total_sectors_32 &&
  primary.fat_size_32 == backup.fat_size_32 &&
  primary.root_cluster == backup.root_cluster &&
  primary.fs_info_sector == backup.fs_info_sector &&
  primary.backup_boot_sector == backup.backup_boot_sector

/-! ### Size calculator (`src/resize/calculator.rs`) -/

/-- `SizeCalculation`: output of `calculate_new_size`. -/
structure SizeCalculation where
  old_total_sectors : Nat
  new_total_sectors : Nat
  old_fat_size : Nat
  new_fat_size : Nat
  new_data_clusters : Nat
  new_free_clusters : Nat
  fat_needs_growth : Bool
  fat_growth_sectors : Nat
  first_affected_cluster : Nat
  last_affected_cluster : Nat
  deriving Repr, DecidableEq

/-- `calculate_fat_size`: the Microsoft BPB formula specialized for FAT32
(4-byte entries), computed in u64 and required to fit in u32. -/
def calculate_fat_size (total_sectors reserved_sectors num_fats sectors_per_cluster
    bytes_per_sector : Nat) : Except Error Nat :=
  let tmp_val1 := total_sectors - reserved_sectors
  let entries_per_sector := bytes_per_sector / 4
  let tmp_val2 := entries_per_sector * sectors_per_cluster + num_fats / 2
  if tmp_val2 = 0 then .error .Calculation
  else
    let fat_size := divCeil tmp_val1 tmp_val2
    if fat_size > 4294967295 then .error .Calculation
    else .ok fat_size

/-- `calculate_new_size`. -/
def calculate_new_size (boot : BootSector) (device_sectors : Nat) :
    Except Error SizeCalculation :=
  let old_total_sectors := boot.total_sectors
  let old_fat_size := boot.fat_size
  let old_data_clusters := boot.data_clusters
  if device_sectors > 4294967295 then .error .Calculation
  else
    let new_total_sectors := device_sectors
    if new_total_sectors < old_total_sectors then .error .ShrinkNotSupported
    else if new_total_sectors = old_total_sectors then .error .AlreadyMaxSize
    else
      match calculate_fat_size new_total_sectors boot.reserved_sectors boot.num_fats
          boot.sectors_per_cluster boot.bytes_per_sector with
      | .error e => .error e
      | .ok new_fat_size =>
        let new_data_sectors :=
          new_total_sectors - boot.reserved_sectors - boot.num_fats * new_fat_size
        let new_data_clusters := new_data_sectors / boot.sectors_per_cluster
        if new_data_clusters < 65525 then .error .Calculation
        else
          let fat_needs_growth := decide (old_fat_size < new_fat_size)
          let fat_growth_sectors := new_fat_size - old_fat_size
          let affected :=
            if fat_needs_growth then
              let total_growth := fat_growth_sectors * boot.num_fats
              let affected_clusters := divCeil total_growth boot.sectors_per_cluster
              (2, 2 + affected_clusters - 1)
            else (0, 0)
          let additional_clusters := new_data_clusters - old_data_clusters
          .ok {
            old_total_sectors, new_total_sectors, old_fat_size, new_fat_size,
            new_data_clusters,
            new_free_clusters := additional_clusters,
            fat_needs_growth, fat_growth_sectors,
            first_affected_cluster := affected.1,
            last_affected_cluster := affected.2 }

/-! ### Relocation planner (`src/resize/relocator.rs`) -/

/-- `ClusterMove`: a planned physical move of one cluster's sectors. -/
structure ClusterMove where
  from_cluster : Nat
  to_cluster : Nat
  from_sector : Nat
  to_sector : Nat
  deriving Repr, DecidableEq

/-- `RelocationPlan`. -/
structure RelocationPlan where
  moves : List ClusterMove
  total_bytes : Nat
  old_first_data_sector : Nat
  new_first_data_sector : Nat
  deriving Repr, DecidableEq

/-- `plan_relocation`: walks clusters from `first_affected` up to
`data_clusters + 2` (stopping at the FAT buffer's length, modelling the
`break`), records a move for every non-free cluster whose position changes,
then sorts the moves by descending cluster number (`sort_by` with
`b.from_cluster.cmp(&a.from_cluster)`).  The unused `device` parameter of the
source is dropped; `_new_data_clusters` is kept for signature fidelity. -/
def plan_relocation (boot : BootSector) (fat : List Nat)
    (first_affected last_affected _new_data_clusters : Nat) : RelocationPlan :=
  let old_first_data_sector := boot.first_data_sector
  let sectors_per_cluster := boot.sectors_per_cluster
  let affected_clusters := last_affected - first_affected + 1
  let shift_sectors := affected_clusters * sectors_per_cluster
  let new_first_data_sector := old_first_data_sector + shift_sectors
  let old_max_cluster := boot.data_clusters + 2
  let upper := min old_max_cluster fat.length
  let moves0 := (List.range' first_affected (upper - first_affected)).filterMap
    fun cluster =>
      let entry := fat.getD cluster 0
      if fat_entry.is_free entry then none
      else
        let old_sector := old_first_data_sector + (cluster - 2) * sectors_per_cluster
        let new_sector := new_first_data_sector + (cluster - 2) * sectors_per_cluster
        if old_sector ≠ new_sector then
          some { from_cluster := cluster, to_cluster := cluster,
                 from_sector := old_sector, to_sector := new_sector }
        else none
  let moves := moves0.mergeSort fun a b => decide (b.from_cluster ≤ a.from_cluster)
  { moves, total_bytes := moves.length * boot.bytes_per_cluster,
    old_first_data_sector, new_first_data_sector }

/-! ### CRC32 (IEEE, reflected polynomial 0xEDB88320), as used by the
`crc32fast` crate for the checkpoint record -/

/-- One bit step of the reflected CRC32. -/
def crc32Step (crc : Nat) : Nat :=
  if crc &&& 1 = 1 then (crc >>> 1) ^^^ 0xEDB88320 else crc >>> 1

/-- Fold one byte into the CRC state. -/
def crc32Byte (crc byte : Nat) : Nat :=
  Nat.repeat crc32Step 8 (crc ^^^ byte)

/-- `crc32fast::hash`: IEEE CRC32 of a byte sequence. -/
def crc32 (data : List Nat) : Nat :=
  (data.foldl crc32Byte 0xFFFFFFFF) ^^^ 0xFFFFFFFF

/-! ### Checkpoint codec (`src/resize/executor.rs`) -/

/-- Magic bytes "FAT32RSZ". -/
def CHECKPOINT_MAGIC : List Nat := [0x46, 0x41, 0x54, 0x33, 0x32, 0x52, 0x53, 0x5A]

def CHECKPOINT_VERSION : Nat := 1

/-- `ResizePhase` (repr u8: 0, 1, 2). -/
inductive ResizePhase where
  | Started
  | DataCopied
  | FatWritten
  deriving Repr, DecidableEq

/-- The `as u8` value of a phase. -/
def ResizePhase.toByte : ResizePhase → Nat
  | .Started => 0
  | .DataCopied => 1
  | .FatWritten => 2

/-- `ResizePhase::from_u8`. -/
def ResizePhase.from_u8 (val : Nat) : Option ResizePhase :=
  if val = 0 then some .Started
  else if val = 1 then some .DataCopied
  else if val = 2 then some .FatWritten
  else none

/-- `ResizeCheckpoint`. -/
structure ResizeCheckpoint where
  phase : ResizePhase
  old_total_sectors : Nat
  new_total_sectors : Nat
  old_fat_size : Nat
  new_fat_size : Nat
  deriving Repr, DecidableEq

/-- The first `DATA_SIZE = 28` bytes of the serialized checkpoint: magic (8),
version (1), phase (1), padding (2), and the four u32 fields little-endian. -/
def ResizeCheckpoint.dataBytes (cp : ResizeCheckpoint) : List Nat :=
  CHECKPOINT_MAGIC ++ [CHECKPOINT_VERSION, cp.phase.toByte, 0, 0] ++
    le32Bytes cp.old_total_sectors ++ le32Bytes cp.new_total_sectors ++
    le32Bytes cp.old_fat_size ++ le32Bytes cp.new_fat_size

/-- `ResizeCheckpoint::to_bytes`: a sector-sized zero-padded buffer holding the
28 data bytes followed by their CRC32 at offset 28.  (The source fills a zero
vector and splices each field at its fixed offset; the result is exactly this
concatenation.) -/
def ResizeCheckpoint.to_bytes (cp : ResizeCheckpoint) (sector_size : Nat) : List Nat :=
  cp.dataBytes ++ le32Bytes (crc32 cp.dataBytes) ++ List.replicate (sector_size - 32) 0

/-- `ResizeCheckpoint::from_bytes`. -/
def ResizeCheckpoint.from_bytes (data : List Nat) :
    Except Error (Option ResizeCheckpoint) :=
  if data.length < 32 then .ok none
  else if data.take 8 ≠ CHECKPOINT_MAGIC then .ok none
  else if data.getD 8 0 ≠ CHECKPOINT_VERSION then .ok none
  else
    let stored_crc := readLe32 data 28
    let computed_crc := crc32 (data.take 28)
    if stored_crc ≠ computed_crc then .error .CheckpointCorrupted
    else
      match ResizePhase.from_u8 (data.getD 9 0) with
      | none => .error .CheckpointCorrupted
      | some phase =>
        .ok (some {
          phase,
          old_total_sectors := readLe32 data 12,
          new_total_sectors := readLe32 data 16,
          old_fat_size := readLe32 data 20,
          new_fat_size := readLe32 data 24 })

/-! ### Block device (`src/device.rs`)

The device is modelled as a byte-addressed store (`bytes : Nat → Nat`) with a
total byte size, the current sector size, a read-only flag, and counters for
write and sync calls (so "performs zero writes / zero syncs" is expressible).
Reads are total (the source fails on reads past end of file; no claim depends
on that failure mode). -/

structure Dev where
  bytes : Nat → Nat
  byteSize : Nat
  sectorSize : Nat
  ro : Bool
  writes : Nat
  syncs : Nat

def Dev.total_sectors (d : Dev) : Nat := d.byteSize / d.sectorSize

/-- `Device::set_sector_size` (total sectors is derived, so it is recomputed
automatically in this model). -/
def Dev.set_sector_size (d : Dev) (size : Nat) : Dev := { d with sectorSize := size }

def Dev.read_bytes_at (d : Dev) (off size : Nat) : List Nat :=
  (List.range size).map fun i => d.bytes (off + i)

def Dev.read_sectors (d : Dev) (start_sector count : Nat) : List Nat :=
  d.read_bytes_at (start_sector * d.sectorSize) (count * d.sectorSize)

def Dev.read_sector (d : Dev) (sector : Nat) : List Nat :=
  d.read_sectors sector 1

/-- `write_all_at`: fails with an I/O error on a read-only handle. -/
def Dev.write_bytes_at (d : Dev) (off : Nat) (data : List Nat) : Except Error Dev :=
  if d.ro then .error .Io
  else .ok { d with
    bytes := fun i =>
      if off ≤ i ∧ i < off + data.length then data.getD (i - off) 0 else d.bytes i,
    writes := d.writes + 1 }

def Dev.write_sectors (d : Dev) (start_sector : Nat) (data : List Nat) :
    Except Error Dev :=
  d.write_bytes_at (start_sector * d.sectorSize) data

/-- `Device::write_sector`: single-sector write with a length check. -/
def Dev.write_sector (d : Dev) (sector : Nat) (data : List Nat) : Except Error Dev :=
  if data.length ≠ d.sectorSize then .error .Io
  else d.write_sectors sector data

def Dev.sync (d : Dev) : Except Error Dev :=
  .ok { d with syncs := d.syncs + 1 }

/-! ### FAT32 operations (`src/fat32/operations.rs`) -/

def MAX_SECTOR_SIZE : Nat := 4096

def VALID_SECTOR_SIZES : List Nat := [512, 1024, 2048, 4096]

/-- `read_boot_sector_for_recovery`: reads 4096 bytes, parses, validates the
sector size, updates the device sector size, re-parses trimmed to the actual
size, validates allowing an invalidated (zero) signature. -/
def read_boot_sector_for_recovery (d : Dev) : Except Error (BootSector × Dev) :=
  let data := d.read_bytes_at 0 MAX_SECTOR_SIZE
  match BootSector.from_bytes data with
  | .error e => .error e
  | .ok boot =>
    let sector_size := boot.bytes_per_sector
    if ¬(VALID_SECTOR_SIZES.contains sector_size) then .error .UnsupportedSectorSize
    else
      let d := d.set_sector_size sector_size
      match BootSector.from_bytes (data.take sector_size) with
      | .error e => .error e
      | .ok boot =>
        match validate_boot_sector_for_recovery boot with
        | .error e => .error e
        | .ok _ => .ok (boot, d)

def read_backup_boot_sector (d : Dev) (sector : Nat) : Except Error BootSector :=
  BootSector.from_bytes (d.read_sector sector)

def read_fsinfo (d : Dev) (sector : Nat) : Except Error FSInfo :=
  match FSInfo.from_bytes (d.read_sector sector) with
  | .error e => .error e
  | .ok fsinfo =>
    match validate_fsinfo fsinfo with
    | .error e => .error e
    | .ok _ => .ok fsinfo

def write_boot_sector (d : Dev) (boot : BootSector) : Except Error Dev :=
  d.write_sector 0 boot.as_bytes

def write_backup_boot_sector (d : Dev) (boot : BootSector) (sector : Nat) :
    Except Error Dev :=
  d.write_sector sector boot.as_bytes

def write_fsinfo (d : Dev) (fsinfo : FSInfo) (sector : Nat) : Except Error Dev :=
  d.write_sector sector fsinfo.as_bytes

/-- `read_fat_table`: bulk read of one FAT copy, decoded as little-endian u32
entries.  (The source reads in 256-sector chunks; the concatenation of the
chunks is the contiguous range modelled here.) -/
def read_fat_table (d : Dev) (boot : BootSector) (fat_number : Nat) : List Nat :=
  let fat_start := boot.first_fat_sector + fat_number * boot.fat_size
  let fat_sectors := boot.fat_size
  let bytes_per_sector := boot.bytes_per_sector
  let total_bytes := fat_sectors * bytes_per_sector
  let fat_data := d.read_sectors fat_start fat_sectors
  (List.range (total_bytes / 4)).map fun i => readLe32 fat_data (i * 4)

/-- The loop body of `write_fat_entry_with_size` for one FAT copy: read the
sector holding the entry, splice in `(value & 0x0FFFFFFF) | (existing &
0xF0000000)`, write the sector back. -/
def writeFatEntryStep (boot : BootSector) (cluster value fat_size : Nat)
    (d : Dev) (fat_num : Nat) : Except Error Dev :=
  let bytes_per_sector := boot.bytes_per_sector
  let entries_per_sector := bytes_per_sector / 4
  let fat_start := boot.first_fat_sector + fat_num * fat_size
  let sector := fat_start + cluster / entries_per_sector
  let offset := cluster % entries_per_sector * 4
  let sector_data := d.read_sector sector
  let existing := readLe32 sector_data offset
  let preserved_bits := existing &&& 0xF0000000
  let new_value := value &&& 0x0FFFFFFF ||| preserved_bits
  let sector_data := writeBytesIn sector_data offset (le32Bytes new_value)
  d.write_sector sector sector_data

/-- `write_fat_entry_with_size`: read-modify-write of one FAT entry in every
FAT copy, preserving the top 4 bits of the existing on-disk entry. -/
def write_fat_entry_with_size (d : Dev) (boot : BootSector)
    (cluster value fat_size : Nat) : Except Error Dev :=
  (List.range boot.num_fats).foldlM (writeFatEntryStep boot cluster value fat_size) d

/-- `write_fat_entry`: all copies, using the boot sector's FAT size. -/
def write_fat_entry (d : Dev) (boot : BootSector) (cluster value : Nat) :
    Except Error Dev :=
  write_fat_entry_with_size d boot cluster value boot.fat_size

/-! ### Relocation executor (`src/resize/relocator.rs`) -/

/-- `execute_relocation`: for each move in plan order, read
`sectors_per_cluster` sectors from the old position and write them to the new
position; sync at the end.  (The returned cluster-renumbering vector of the
source is always empty and is dropped here.) -/
def execute_relocation (d : Dev) (boot : BootSector) (plan : RelocationPlan) :
    Except Error Dev := do
  let sectors_per_cluster := boot.sectors_per_cluster
  let d ← plan.moves.foldlM
    (fun d mv => do
      let data := d.read_sectors mv.from_sector sectors_per_cluster
      d.write_sectors mv.to_sector data)
    d
  d.sync

/-- `verify_relocation`: a no-op in the data-shift design. -/
def verify_relocation (_fat : List Nat) (_first_affected _last_affected : Nat) :
    Except Error Unit :=
  .ok ()

/-! ### Checkpoint I/O and resume check (`src/resize/executor.rs`) -/

/-- `write_checkpoint`: write to the last sector of the device, then sync. -/
def write_checkpoint (d : Dev) (checkpoint : ResizeCheckpoint) : Except Error Dev := do
  let sector := d.total_sectors - 1
  let d ← d.write_sector sector (checkpoint.to_bytes d.sectorSize)
  d.sync

/-- `read_checkpoint`: only present when the device is larger than the
filesystem; parses the last sector. -/
def read_checkpoint (d : Dev) (boot : BootSector) :
    Except Error (Option ResizeCheckpoint) :=
  if d.total_sectors ≤ boot.total_sectors then .ok none
  else ResizeCheckpoint.from_bytes (d.read_sector (d.total_sectors - 1))

/-- `clear_checkpoint`: zero the last sector. -/
def clear_checkpoint (d : Dev) : Except Error Dev :=
  d.write_sector (d.total_sectors - 1) (List.replicate d.sectorSize 0)

/-- `check_for_incomplete_resize`: with an invalidated boot signature a valid
checkpoint is mandatory; with a valid signature the checkpoint is optional. -/
def check_for_incomplete_resize (d : Dev) (boot : BootSector) :
    Except Error (Option ResizeCheckpoint) :=
  if ¬ boot.is_signature_valid then
    if d.total_sectors ≤ boot.total_sectors then .error .InvalidatedFilesystem
    else
      match ResizeCheckpoint.from_bytes (d.read_sector (d.total_sectors - 1)) with
      | .error e => .error e
      | .ok (some cp) => .ok (some cp)
      | .ok none => .error .InvalidatedFilesystem
  else read_checkpoint d boot

/-! ### Resize orchestrator (`src/resize/executor.rs`, `resize_fat32`)

The orchestrator is split into stage functions mirroring contiguous blocks of
the source.  Each stage returns the final device state on success; when a write
inside a phase fails, the source surfaces the error with whatever partial
writes already hit the disk — the model pairs such an error with the device at
the start of the failed block (no claim concerns post-error partial states).
The mount check and the path-based `Device::open` are environmental and are
modelled by handing the function an already-opened device; `open` /
`open_readonly` is modelled by the read-only flag, and a freshly opened device
defaults to 512-byte sectors.  Log messages keep only the static text of the
source's format strings. -/

structure ResizeOptions where
  device_path : String
  dry_run : Bool
  verbose : Bool
  deriving Repr, DecidableEq

structure ResizeResult where
  old_size_bytes : Nat
  new_size_bytes : Nat
  fat_grew : Bool
  clusters_relocated : Nat
  calculation : SizeCalculation
  operations : List String
  deriving Repr, DecidableEq

/-- `calculate_data_clusters_from_params` (saturating subtractions are `Nat`
subtraction). -/
def calculate_data_clusters_from_params (total_sectors reserved_sectors num_fats
    fat_size sectors_per_cluster : Nat) : Nat :=
  (total_sectors - reserved_sectors - num_fats * fat_size) / sectors_per_cluster

/-- The `SizeCalculation` rebuilt from a checkpoint when resuming
(`resize_fat32`, the `incomplete_resize` arm of the calculation). -/
def checkpoint_calculation (boot : BootSector) (cp : ResizeCheckpoint) :
    SizeCalculation :=
  { old_total_sectors := cp.old_total_sectors,
    new_total_sectors := cp.new_total_sectors,
    old_fat_size := cp.old_fat_size,
    new_fat_size := cp.new_fat_size,
    new_data_clusters := calculate_data_clusters_from_params cp.new_total_sectors
      boot.reserved_sectors boot.num_fats cp.new_fat_size boot.sectors_per_cluster,
    new_free_clusters := 0,
    fat_needs_growth := decide (cp.old_fat_size < cp.new_fat_size),
    fat_growth_sectors := cp.new_fat_size - cp.old_fat_size,
    first_affected_cluster := 2,
    last_affected_cluster := 2 +
      divCeil ((cp.new_fat_size - cp.old_fat_size) * boot.num_fats)
        boot.sectors_per_cluster - 1 }

/-- `init_new_fat_sectors`: zero the newly appended FAT-0 sectors. -/
def init_new_fat_sectors (d : Dev) (boot : BootSector) (sc : SizeCalculation) :
    Except Error Dev :=
  if sc.new_fat_size ≤ sc.old_fat_size then .ok d
  else
    let fat1_start := boot.first_fat_sector
    let free_sector := List.replicate boot.bytes_per_sector 0
    (List.range' sc.old_fat_size (sc.new_fat_size - sc.old_fat_size)).foldlM
      (fun d sector_offset => d.write_sector (fat1_start + sector_offset) free_sector)
      d

/-- `sync_fat_copies`: copy the whole new-sized FAT-0 to every further copy. -/
def sync_fat_copies (d : Dev) (boot : BootSector) (sc : SizeCalculation) :
    Except Error Dev :=
  if sc.new_fat_size ≤ sc.old_fat_size then .ok d
  else
    let fat1_start := boot.first_fat_sector
    (List.range' 1 (boot.num_fats - 1)).foldlM
      (fun d fat_num =>
        let fat_dest_start := fat1_start + fat_num * sc.new_fat_size
        (List.range sc.new_fat_size).foldlM
          (fun d sector_offset =>
            let data := d.read_sector (fat1_start + sector_offset)
            d.write_sector (fat_dest_start + sector_offset) data)
          d)
      d

/-- Phase 0 of `resize_fat32`: checkpoint `Started`, data shift, verify,
checkpoint `DataCopied`. -/
def phase0_data_shift (d : Dev) (boot : BootSector) (fat : List Nat)
    (sc : SizeCalculation) (plan : RelocationPlan) : Except Error Dev := do
  let d ← write_checkpoint d
    ⟨.Started, sc.old_total_sectors, sc.new_total_sectors,
     sc.old_fat_size, sc.new_fat_size⟩
  let d ← execute_relocation d boot plan
  match verify_relocation fat sc.first_affected_cluster sc.last_affected_cluster with
  | .error e => .error e
  | .ok _ =>
    write_checkpoint d
      ⟨.DataCopied, sc.old_total_sectors, sc.new_total_sectors,
       sc.old_fat_size, sc.new_fat_size⟩

/-- Phase 1 of `resize_fat32`: invalidate the boot signature, write and sync,
initialize new FAT sectors, sync FAT copies, checkpoint `FatWritten`. -/
def phase1_fat_ops (d : Dev) (boot : BootSector) (sc : SizeCalculation) :
    Except Error (Dev × BootSector) := do
  let boot := boot.invalidate_signature
  let d ← write_boot_sector d boot
  let d ← d.sync
  let d ← init_new_fat_sectors d boot sc
  let d ← sync_fat_copies d boot sc
  let d ← write_checkpoint d
    ⟨.FatWritten, sc.old_total_sectors, sc.new_total_sectors,
     sc.old_fat_size, sc.new_fat_size⟩
  .ok (d, boot)

/-- Phase 2 of `resize_fat32` (lines 543..583): update and restore the boot
sector, mirror it to the backup, update the FSInfo free count, clear the
checkpoint, final sync. -/
def metadataPhase (d : Dev) (boot : BootSector) (fsinfo : FSInfo)
    (sc : SizeCalculation) (backup_sector fsinfo_sector : Nat) :
    Except Error Dev := do
  let boot := ((boot.set_total_sectors_32 sc.new_total_sectors).set_fat_size_32
    sc.new_fat_size).restore_signature
  let d ← write_boot_sector d boot
  let d ← write_backup_boot_sector d boot backup_sector
  let old_free := fsinfo.free_count
  let old_data_clusters :=
    (sc.old_total_sectors - boot.reserved_sectors -
      boot.num_fats * sc.old_fat_size) / boot.sectors_per_cluster
  let additional_clusters := sc.new_data_clusters - old_data_clusters
  let new_free :=
    if old_free = FSInfo.UNKNOWN_FREE then FSInfo.UNKNOWN_FREE
    else min (old_free + additional_clusters) 0xFFFFFFFF
  let fsinfo := fsinfo.set_free_count new_free
  let d ← write_fsinfo d fsinfo fsinfo_sector
  let d ← clear_checkpoint d
  d.sync

/-- The tail of `resize_fat32` (lines 543..596): run the metadata phase unless
this is a dry run, then build the result record. -/
def finish_resize (opts : ResizeOptions) (d : Dev) (boot : BootSector)
    (fsinfo : FSInfo) (sc : SizeCalculation) (backup_sector fsinfo_sector : Nat)
    (clusters_relocated old_size_bytes new_size_bytes : Nat) (ops : List String) :
    Except Error ResizeResult × Dev :=
  if ¬ opts.dry_run then
    match metadataPhase d boot fsinfo sc backup_sector fsinfo_sector with
    | .error e => (.error e, d)
    | .ok d =>
      (.ok { old_size_bytes, new_size_bytes, fat_grew := sc.fat_needs_growth,
             clusters_relocated, calculation := sc,
             operations := ops ++ ["Updated boot sector", "Updated backup boot sector",
               "Updated FSInfo", "Cleared checkpoint", "Synced changes to disk"] }, d)
  else
    (.ok { old_size_bytes, new_size_bytes, fat_grew := sc.fat_needs_growth,
           clusters_relocated, calculation := sc,
           operations := ops ++ ["Dry run: no changes made"] }, d)

/-- The FAT-growth block of `resize_fat32` (lines 417..541) followed by the
metadata tail. -/
def resize_phases (opts : ResizeOptions) (d : Dev) (boot : BootSector)
    (fsinfo : FSInfo) (sc : SizeCalculation) (fat : List Nat)
    (starting_phase : ResizePhase) (backup_sector fsinfo_sector : Nat)
    (old_size_bytes new_size_bytes : Nat) (ops : List String) :
    Except Error ResizeResult × Dev :=
  if sc.fat_needs_growth then
    let plan := plan_relocation boot fat sc.first_affected_cluster
      sc.last_affected_cluster sc.new_data_clusters
    if ¬ plan.moves.isEmpty then
      if ¬ opts.dry_run then
        let step0 : Except Error Dev :=
          if starting_phase = .Started then phase0_data_shift d boot fat sc plan
          else .ok d
        match step0 with
        | .error e => (.error e, d)
        | .ok d1 =>
          let step1 : Except Error (Dev × BootSector) :=
            if starting_phase.toByte ≤ ResizePhase.DataCopied.toByte then
              phase1_fat_ops d1 boot sc
            else .ok (d1, boot)
          match step1 with
          | .error e => (.error e, d1)
          | .ok (d2, boot2) =>
            finish_resize opts d2 boot2 fsinfo sc backup_sector fsinfo_sector
              plan.moves.length old_size_bytes new_size_bytes
              (ops ++ ["FAT needs to grow", "Planned data shift"])
      else
        finish_resize opts d boot fsinfo sc backup_sector fsinfo_sector
          0 old_size_bytes new_size_bytes
          (ops ++ ["FAT needs to grow", "Planned data shift",
            "Dry run: would shift cluster data"])
    else
      finish_resize opts d boot fsinfo sc backup_sector fsinfo_sector
        0 old_size_bytes new_size_bytes (ops ++ ["FAT needs to grow"])
  else
    finish_resize opts d boot fsinfo sc backup_sector fsinfo_sector
      0 old_size_bytes new_size_bytes ops

/-- `resize_fat32` after the resume-size check: backup comparison, FSInfo read,
size calculation (from checkpoint when resuming), FAT read, then the phases. -/
def resize_after_resume_check (opts : ResizeOptions) (d : Dev) (boot : BootSector)
    (incomplete : Option ResizeCheckpoint) (ops : List String) :
    Except Error ResizeResult × Dev :=
  let backup_sector := boot.backup_boot_sector
  match read_backup_boot_sector d backup_sector with
  | .error e => (.error e, d)
  | .ok backup_boot =>
    if boot.is_signature_valid ∧ ¬ boot_sectors_match boot backup_boot then
      (.error .BackupMismatch, d)
    else
      let fsinfo_sector := boot.fs_info_sector
      match read_fsinfo d fsinfo_sector with
      | .error e => (.error e, d)
      | .ok fsinfo =>
        let device_sectors := d.total_sectors
        let calcE : Except Error SizeCalculation :=
          match incomplete with
          | some cp => .ok (checkpoint_calculation boot cp)
          | none => calculate_new_size boot device_sectors
        match calcE with
        | .error e => (.error e, d)
        | .ok calculation =>
          let old_size_bytes := calculation.old_total_sectors * boot.bytes_per_sector
          let new_size_bytes := calculation.new_total_sectors * boot.bytes_per_sector
          let fat := read_fat_table d boot 0
          let starting_phase := (incomplete.map ResizeCheckpoint.phase).getD .Started
          resize_phases opts d boot fsinfo calculation fat starting_phase
            backup_sector fsinfo_sector old_size_bytes new_size_bytes
            (ops ++ ["Verified backup boot sector", "Read FSInfo",
              "Calculated resize", "Read FAT table"])

/-- `resize_fat32`: the full orchestrator over an opened device. -/
def resize_fat32 (opts : ResizeOptions) (dev : Dev) :
    Except Error ResizeResult × Dev :=
  let ops : List String := ["Verified device is not mounted", "Opened device"]
  let d := { dev with sectorSize := 512, ro := opts.dry_run }
  match read_boot_sector_for_recovery d with
  | .error e => (.error e, d)
  | .ok (boot, d) =>
    let ops := ops ++ ["Read boot sector"]
    match (if ¬ opts.dry_run then check_for_incomplete_resize d boot else .ok none) with
    | .error e => (.error e, d)
    | .ok incomplete_resize =>
      match incomplete_resize with
      | some cp =>
        if d.total_sectors < cp.new_total_sectors then
          (.error (.ResizeSizeMismatch cp.phase.toByte), d)
        else
          resize_after_resume_check opts d boot (some cp)
            (ops ++ ["Detected incomplete resize"])
      | none => resize_after_resume_check opts d boot none ops

/-! ## Supporting lemmas -/

theorem le32Bytes_length (n : Nat) : (le32Bytes n).length = 4 := rfl

/-- Radix-256 recomposition: decoding the four little-endian bytes of a u32
recovers the value. -/
theorem readLe32_le32Bytes_append (n : Nat) (rest : List Nat)
    (h : n < 4294967296) : readLe32 (le32Bytes n ++ rest) 0 = n := by
  simp [readLe32, le32Bytes]
  omega

theorem divCeil_eq_ceil (a b : Nat) (hb : 0 < b) : divCeil a b = (a + b - 1) / b := by
  unfold divCeil
  have h0 := Nat.div_add_mod a b
  have hr : a % b < b := Nat.mod_lt _ hb
  rcases eq_or_ne (a % b) 0 with h | h
  · have h1 : a + b - 1 = b * (a / b) + (b - 1) := by omega
    rw [if_pos h, h1, Nat.mul_add_div hb,
      Nat.div_eq_of_lt (show b - 1 < b by omega)]
  · have hd : b * (a / b + 1) = b * (a / b) + b := by ring
    have h1 : a + b - 1 = b * (a / b + 1) + (a % b - 1) := by omega
    rw [if_neg h, h1, Nat.mul_add_div hb,
      Nat.div_eq_of_lt (show a % b - 1 < b by omega)]

theorem crc32Step_lt (c : Nat) (h : c < 4294967296) : crc32Step c < 4294967296 := by
  unfold crc32Step
  have h1 : c >>> 1 < 4294967296 := by
    rw [Nat.shiftRight_eq_div_pow]
    omega
  split
  · have : c >>> 1 < 2 ^ 32 := h1
    have : (c >>> 1) ^^^ 0xEDB88320 < 2 ^ 32 :=
      Nat.xor_lt_two_pow this (by norm_num)
    simpa using this
  · exact h1

theorem crc32Byte_lt (c b : Nat) (hc : c < 4294967296) (hb : b < 4294967296) :
    crc32Byte c b < 4294967296 := by
  have h0 : c ^^^ b < 4294967296 := by
    have : c ^^^ b < 2 ^ 32 := Nat.xor_lt_two_pow (by simpa using hc) (by simpa using hb)
    simpa using this
  unfold crc32Byte
  simp only [Nat.repeat]
  iterate 8 apply crc32Step_lt
  exact h0

theorem crc32_foldl_lt (data : List Nat) (acc : Nat) (hacc : acc < 4294967296)
    (h : ∀ b ∈ data, b < 4294967296) : data.foldl crc32Byte acc < 4294967296 := by
  induction data generalizing acc with
  | nil => simpa using hacc
  | cons x xs ih =>
    simp only [List.foldl_cons]
    exact ih _ (crc32Byte_lt _ _ hacc (h x (by simp))) fun b hb => h b (by simp [hb])

/-- The CRC32 of a byte list stays below `2^32`. -/
theorem crc32_lt (data : List Nat) (h : ∀ b ∈ data, b < 4294967296) :
    crc32 data < 4294967296 := by
  unfold crc32
  have h1 := crc32_foldl_lt data 0xFFFFFFFF (by norm_num) h
  have : data.foldl crc32Byte 0xFFFFFFFF ^^^ 0xFFFFFFFF < 2 ^ 32 :=
    Nat.xor_lt_two_pow (by simpa using h1) (by norm_num)
  simpa using this

/-! ## C10: `BootSector::from_bytes` behaviour -/

/-- C10.  `BootSector::from_bytes(b)` fails (with the boot-sector validation
error) exactly when `b` has fewer than 512 bytes; on any buffer of at least 512
bytes it succeeds with no content validation, and the parsed sector's
`as_bytes` is byte-identical to the input buffer. -/
theorem bootSector_from_bytes_characterization (b : List Nat) :
    ((∃ e, BootSector.from_bytes b = .error e) ↔ b.length < 512) ∧
    (∀ bs, BootSector.from_bytes b = .ok bs → bs.as_bytes = b) := by
  unfold BootSector.from_bytes
  constructor
  · constructor
    · rintro ⟨e, he⟩
      by_contra hlen
      rw [if_neg hlen] at he
      exact Except.noConfusion he
    · intro hlen
      exact ⟨.BootSectorValidation, by rw [if_pos hlen]⟩
  · intro bs hbs
    split at hbs
    · exact Except.noConfusion hbs
    · cases hbs
      rfl

/-! ## C3: `calculate_fat_size` -/

/-- C3.  With `reserved ≤ total` (the source subtracts in u64 and would
underflow otherwise), `calculate_fat_size` returns exactly the ceiling
`⌈(total − reserved) / ((bps/4)·spc + nf/2)⌉` whenever that value fits in u32,
a `Calculation` error when the divisor is zero, and a `Calculation` error when
the value exceeds `u32::MAX`. -/
theorem calculate_fat_size_spec (total reserved nf spc bps : Nat)
    (_h : reserved ≤ total) :
    calculate_fat_size total reserved nf spc bps =
      (if bps / 4 * spc + nf / 2 = 0 then .error .Calculation
       else if (total - reserved + (bps / 4 * spc + nf / 2) - 1) /
           (bps / 4 * spc + nf / 2) > 4294967295 then .error .Calculation
       else .ok ((total - reserved + (bps / 4 * spc + nf / 2) - 1) /
           (bps / 4 * spc + nf / 2))) := by
  unfold calculate_fat_size
  rcases eq_or_ne (bps / 4 * spc + nf / 2) 0 with h0 | h0
  · rw [if_pos h0, if_pos h0]
  · rw [if_neg h0, if_neg h0, divCeil_eq_ceil _ _ (Nat.pos_of_ne_zero h0)]

/-- Witness for C3 at a concrete input (1 GiB volume, 512-byte sectors,
8 sectors per cluster, 2 FATs). -/
theorem calculate_fat_size_spec_witness :
    32 ≤ 2097152 ∧
      calculate_fat_size 2097152 32 2 8 512 =
        (if 512 / 4 * 8 + 2 / 2 = 0 then .error .Calculation
         else if (2097152 - 32 + (512 / 4 * 8 + 2 / 2) - 1) /
             (512 / 4 * 8 + 2 / 2) > 4294967295 then .error .Calculation
         else .ok ((2097152 - 32 + (512 / 4 * 8 + 2 / 2) - 1) /
             (512 / 4 * 8 + 2 / 2))) :=
  ⟨by decide, calculate_fat_size_spec 2097152 32 2 8 512 (by decide)⟩

/-! ## Checkpoint codec lemmas -/

instance {ε α : Type} [DecidableEq ε] [DecidableEq α] : DecidableEq (Except ε α)
  | .error e, .error f =>
    if h : e = f then .isTrue (by rw [h])
    else .isFalse (by intro hh; cases hh; exact h rfl)
  | .error _, .ok _ => .isFalse Except.noConfusion
  | .ok _, .error _ => .isFalse Except.noConfusion
  | .ok a, .ok b =>
    if h : a = b then .isTrue (by rw [h])
    else .isFalse (by intro hh; cases hh; exact h rfl)

/-- Successful parse: with magic, version, CRC and phase all valid, `from_bytes`
returns the record read from the fixed offsets. -/
theorem checkpoint_from_bytes_ok_of (data : List Nat) (phase : ResizePhase)
    (hlen : ¬ data.length < 32) (hm : data.take 8 = CHECKPOINT_MAGIC)
    (hv : data.getD 8 0 = CHECKPOINT_VERSION)
    (hc : readLe32 data 28 = crc32 (data.take 28))
    (hp : ResizePhase.from_u8 (data.getD 9 0) = some phase) :
    ResizeCheckpoint.from_bytes data = .ok (some
      { phase, old_total_sectors := readLe32 data 12,
        new_total_sectors := readLe32 data 16,
        old_fat_size := readLe32 data 20,
        new_fat_size := readLe32 data 24 }) := by
  unfold ResizeCheckpoint.from_bytes
  rw [if_neg hlen, if_neg (not_not_intro hm), if_neg (not_not_intro hv),
    if_neg (not_not_intro hc), hp]

theorem checkpoint_from_bytes_none_iff (data : List Nat) :
    ResizeCheckpoint.from_bytes data = .ok none ↔
      data.length < 32 ∨ data.take 8 ≠ CHECKPOINT_MAGIC ∨
        data.getD 8 0 ≠ CHECKPOINT_VERSION := by
  unfold ResizeCheckpoint.from_bytes
  by_cases h1 : data.length < 32
  · rw [if_pos h1]
    simp [h1]
  · rw [if_neg h1]
    by_cases h2 : data.take 8 ≠ CHECKPOINT_MAGIC
    · rw [if_pos h2]
      simp [h1, h2]
    · rw [if_neg h2]
      by_cases h3 : data.getD 8 0 ≠ CHECKPOINT_VERSION
      · rw [if_pos h3]
        have h3' : ¬ data[8]?.getD 0 = CHECKPOINT_VERSION := by simpa using h3
        simp [h1, not_not.mp h2, h3']
      · rw [if_neg h3]
        have h3' : data[8]?.getD 0 = CHECKPOINT_VERSION := by
          simpa using not_not.mp h3
        by_cases h4 : readLe32 data 28 ≠ crc32 (data.take 28)
        · rw [if_pos h4]
          simp [h1, not_not.mp h2, h3']
        · rw [if_neg h4]
          cases hph : ResizePhase.from_u8 (data.getD 9 0) <;>
            simp [h1, not_not.mp h2, h3']

theorem checkpoint_from_bytes_err_iff (data : List Nat) :
    ResizeCheckpoint.from_bytes data = .error .CheckpointCorrupted ↔
      (¬ data.length < 32 ∧ data.take 8 = CHECKPOINT_MAGIC ∧
        data.getD 8 0 = CHECKPOINT_VERSION ∧
        (readLe32 data 28 ≠ crc32 (data.take 28) ∨
          ResizePhase.from_u8 (data.getD 9 0) = none)) := by
  unfold ResizeCheckpoint.from_bytes
  by_cases h1 : data.length < 32
  · rw [if_pos h1]
    simp [h1]
  · rw [if_neg h1]
    by_cases h2 : data.take 8 ≠ CHECKPOINT_MAGIC
    · rw [if_pos h2]
      simp [h1, h2]
    · rw [if_neg h2]
      by_cases h3 : data.getD 8 0 ≠ CHECKPOINT_VERSION
      · rw [if_pos h3]
        have h3' : ¬ data[8]?.getD 0 = CHECKPOINT_VERSION := by simpa using h3
        simp [h1, not_not.mp h2, h3']
      · rw [if_neg h3]
        have h3' : data[8]?.getD 0 = CHECKPOINT_VERSION := by
          simpa using not_not.mp h3
        by_cases h4 : readLe32 data 28 ≠ crc32 (data.take 28)
        · rw [if_pos h4]
          simp [h1, not_not.mp h2, h3', h4]
        · rw [if_neg h4]
          have hph9 : ∀ o, ResizePhase.from_u8 (data.getD 9 0) = o →
              ResizePhase.from_u8 (data[9]?.getD 0) = o := by
            intro o ho
            simpa using ho
          cases hph : ResizePhase.from_u8 (data.getD 9 0) <;>
            simp [h1, not_not.mp h2, h3', not_not.mp h4, hph9 _ hph]

/-! ## C4: `ResizeCheckpoint::from_bytes` behaviour -/

/-- C4 (amended).  `from_bytes` returns `Ok(None)` exactly when the buffer is
short, the magic differs, or the version differs; it returns
`Err(CheckpointCorrupted)` exactly when magic and version match but either the
stored CRC differs from the computed CRC32 of bytes 0..28 or the phase byte is
not 0, 1 or 2; and in every remaining case it returns the parsed record.
(The original claim omitted the invalid-phase-byte case; see the
counterexample.) -/
theorem checkpoint_from_bytes_characterization (data : List Nat) :
    (ResizeCheckpoint.from_bytes data = .ok none ↔
      data.length < 32 ∨ data.take 8 ≠ CHECKPOINT_MAGIC ∨
        data.getD 8 0 ≠ CHECKPOINT_VERSION) ∧
    (ResizeCheckpoint.from_bytes data = .error .CheckpointCorrupted ↔
      (¬ data.length < 32 ∧ data.take 8 = CHECKPOINT_MAGIC ∧
        data.getD 8 0 = CHECKPOINT_VERSION ∧
        (readLe32 data 28 ≠ crc32 (data.take 28) ∨
          ResizePhase.from_u8 (data.getD 9 0) = none))) ∧
    (∀ phase : ResizePhase, ¬ data.length < 32 → data.take 8 = CHECKPOINT_MAGIC →
      data.getD 8 0 = CHECKPOINT_VERSION →
      readLe32 data 28 = crc32 (data.take 28) →
      ResizePhase.from_u8 (data.getD 9 0) = some phase →
      ResizeCheckpoint.from_bytes data = .ok (some
        { phase, old_total_sectors := readLe32 data 12,
          new_total_sectors := readLe32 data 16,
          old_fat_size := readLe32 data 20,
          new_fat_size := readLe32 data 24 })) :=
  ⟨checkpoint_from_bytes_none_iff data, checkpoint_from_bytes_err_iff data,
    fun phase h1 h2 h3 h4 h5 => checkpoint_from_bytes_ok_of data phase h1 h2 h3 h4 h5⟩

/-- A 32-byte buffer with valid magic, version 1, a CRC that matches the
computed CRC32 of its first 28 bytes — and phase byte 3. -/
def checkpointBadPhaseBuf : List Nat :=
  [0x46, 0x41, 0x54, 0x33, 0x32, 0x52, 0x53, 0x5A, 1, 3, 0, 0] ++
    le32Bytes 1000 ++ le32Bytes 2000 ++ le32Bytes 10 ++ le32Bytes 13 ++
    le32Bytes (crc32 ([0x46, 0x41, 0x54, 0x33, 0x32, 0x52, 0x53, 0x5A, 1, 3, 0, 0] ++
      le32Bytes 1000 ++ le32Bytes 2000 ++ le32Bytes 10 ++ le32Bytes 13))

set_option maxRecDepth 4000 in
/-- C4 counterexample: a buffer whose magic and version match and whose stored
CRC equals the computed CRC still yields `Err(CheckpointCorrupted)` (its phase
byte is 3), contradicting the claim's "returns CheckpointCorrupted iff
magic+version match but the CRC fails ... otherwise returns the parsed
record". -/
theorem checkpoint_from_bytes_bad_phase_counterexample :
    readLe32 checkpointBadPhaseBuf 28 = crc32 (checkpointBadPhaseBuf.take 28) ∧
    checkpointBadPhaseBuf.take 8 = CHECKPOINT_MAGIC ∧
    checkpointBadPhaseBuf.getD 8 0 = CHECKPOINT_VERSION ∧
    ResizeCheckpoint.from_bytes checkpointBadPhaseBuf =
      .error .CheckpointCorrupted := by
  decide

/-! ## C5: checkpoint serialization round-trip -/

/-- Every byte of a serialized checkpoint's data part is below `2^32`. -/
theorem dataBytes_mem_lt (cp : ResizeCheckpoint) :
    ∀ b ∈ cp.dataBytes, b < 4294967296 := by
  obtain ⟨phase, o, n, f, g⟩ := cp
  intro b hb
  have hpb : phase.toByte < 4294967296 := by cases phase <;> decide
  simp [ResizeCheckpoint.dataBytes, CHECKPOINT_MAGIC, CHECKPOINT_VERSION,
    le32Bytes] at hb
  rcases hb with rfl | rfl | rfl | rfl | rfl | rfl | rfl | rfl | rfl | rfl |
    rfl | rfl | hb4
  · omega
  · omega
  · omega
  · omega
  · omega
  · omega
  · omega
  · omega
  · omega
  · exact hpb
  · omega
  · omega
  · rcases hb4 with ⟨x, hx, rfl | rfl | rfl | rfl⟩ <;> omega

/-- C5.  For every checkpoint (any phase, u32 field values) and every sector
size in the valid set, `from_bytes (to_bytes cp s)` recovers exactly `cp`. -/
theorem checkpoint_roundtrip (cp : ResizeCheckpoint) (s : Nat)
    (h1 : cp.old_total_sectors < 4294967296)
    (h2 : cp.new_total_sectors < 4294967296)
    (h3 : cp.old_fat_size < 4294967296)
    (h4 : cp.new_fat_size < 4294967296)
    (hs : s ∈ VALID_SECTOR_SIZES) :
    ResizeCheckpoint.from_bytes (cp.to_bytes s) = .ok (some cp) := by
  have hs' : 512 ≤ s := by
    rcases (by simpa [VALID_SECTOR_SIZES] using hs :
      s = 512 ∨ s = 1024 ∨ s = 2048 ∨ s = 4096) with rfl | rfl | rfl | rfl <;>
      norm_num
  have hKlt := crc32_lt cp.dataBytes (dataBytes_mem_lt cp)
  obtain ⟨phase, o, n, f, g⟩ := cp
  simp only [ResizeCheckpoint.old_total_sectors, ResizeCheckpoint.new_total_sectors,
    ResizeCheckpoint.old_fat_size, ResizeCheckpoint.new_fat_size] at h1 h2 h3 h4
  refine Eq.trans (checkpoint_from_bytes_ok_of _ phase ?_ ?_ ?_ ?_ ?_) ?_
  · -- length is at least 32
    simp [ResizeCheckpoint.to_bytes, ResizeCheckpoint.dataBytes, CHECKPOINT_MAGIC,
      le32Bytes]
  · -- the first 8 bytes are the magic
    simp [ResizeCheckpoint.to_bytes, ResizeCheckpoint.dataBytes, CHECKPOINT_MAGIC,
      le32Bytes]
  · -- byte 8 is the version
    simp [ResizeCheckpoint.to_bytes, ResizeCheckpoint.dataBytes, CHECKPOINT_MAGIC,
      CHECKPOINT_VERSION, le32Bytes]
  · -- the stored CRC matches the CRC computed over the first 28 bytes
    have htake : (ResizeCheckpoint.to_bytes ⟨phase, o, n, f, g⟩ s).take 28 =
        ResizeCheckpoint.dataBytes ⟨phase, o, n, f, g⟩ := by
      simp [ResizeCheckpoint.to_bytes, ResizeCheckpoint.dataBytes, CHECKPOINT_MAGIC,
        le32Bytes]
    rw [htake]
    simp only [ResizeCheckpoint.to_bytes]
    generalize hK : crc32 (ResizeCheckpoint.dataBytes ⟨phase, o, n, f, g⟩) = K
    rw [hK] at hKlt
    simp [ResizeCheckpoint.dataBytes, CHECKPOINT_MAGIC, le32Bytes, readLe32]
    omega
  · -- byte 9 is the phase, and it parses back
    have h9 : (ResizeCheckpoint.to_bytes ⟨phase, o, n, f, g⟩ s).getD 9 0 =
        phase.toByte := by
      simp [ResizeCheckpoint.to_bytes, ResizeCheckpoint.dataBytes, CHECKPOINT_MAGIC,
        le32Bytes]
    rw [h9]
    cases phase <;> rfl
  · -- the four little-endian fields decode to the original values
    simp [ResizeCheckpoint.to_bytes, ResizeCheckpoint.dataBytes, CHECKPOINT_MAGIC,
      le32Bytes, readLe32]
    omega

/-- Witness for C5 at a concrete checkpoint and sector size 512. -/
theorem checkpoint_roundtrip_witness :
    ResizeCheckpoint.from_bytes
      ((ResizeCheckpoint.mk .DataCopied 262144 524288 2048 4096).to_bytes 512) =
      .ok (some (ResizeCheckpoint.mk .DataCopied 262144 524288 2048 4096)) :=
  checkpoint_roundtrip _ 512 (by decide) (by decide) (by decide) (by decide)
    (by decide)

set_option maxRecDepth 8000 in
/-- Witness for C10: a 300-byte buffer fails, a 512-byte zero buffer parses
and round-trips byte-identically. -/
theorem bootSector_from_bytes_characterization_witness :
    (∃ e, BootSector.from_bytes (List.replicate 300 0) = .error e) ∧
    (BootSector.mk (List.replicate 512 0)).as_bytes = List.replicate 512 0 :=
  ⟨(bootSector_from_bytes_characterization (List.replicate 300 0)).1.mpr
      (by simp),
    (bootSector_from_bytes_characterization (List.replicate 512 0)).2
      ⟨List.replicate 512 0⟩ (by simp [BootSector.from_bytes])⟩

/-- A fully valid serialized checkpoint buffer (phase `DataCopied`). -/
def checkpointGoodBuf : List Nat :=
  [0x46, 0x41, 0x54, 0x33, 0x32, 0x52, 0x53, 0x5A, 1, 1, 0, 0] ++
    le32Bytes 1000 ++ le32Bytes 2000 ++ le32Bytes 10 ++ le32Bytes 13 ++
    le32Bytes (crc32 ([0x46, 0x41, 0x54, 0x33, 0x32, 0x52, 0x53, 0x5A, 1, 1, 0, 0] ++
      le32Bytes 1000 ++ le32Bytes 2000 ++ le32Bytes 10 ++ le32Bytes 13))

set_option maxRecDepth 4000 in
/-- Witness for C4's amended characterization: a concrete valid buffer parses
to the expected record via the third conjunct. -/
theorem checkpoint_from_bytes_characterization_witness :
    ResizeCheckpoint.from_bytes checkpointGoodBuf = .ok (some
      { phase := .DataCopied,
        old_total_sectors := readLe32 checkpointGoodBuf 12,
        new_total_sectors := readLe32 checkpointGoodBuf 16,
        old_fat_size := readLe32 checkpointGoodBuf 20,
        new_fat_size := readLe32 checkpointGoodBuf 24 }) :=
  (checkpoint_from_bytes_characterization checkpointGoodBuf).2.2 .DataCopied
    (by decide) (by decide) (by decide) (by decide) (by decide)

/-! ## C1: the relocation plan's shift amount (code bug)

The spec and the resulting boot-sector geometry require the data area to shift
forward by exactly `fat_growth_sectors * num_fats` sectors, but
`plan_relocation` shifts by `(last_affected - first_affected + 1) *
sectors_per_cluster = ceil(fat_growth_sectors * num_fats / spc) * spc`, which
is strictly larger whenever `spc` does not divide `fat_growth_sectors *
num_fats`.  The boot sector written at the end of the resize places
`first_data_sector` at `old_first_data_sector + fat_growth_sectors * num_fats`,
so the relocated clusters would not be where the resized filesystem expects
them.  The concrete instance below has `spc = 8`, `num_fats = 2` and a FAT
growth of 3 sectors. -/

/-- Boot-sector bytes of the concrete failing filesystem: bps = 512, spc = 8,
reserved = 32, 2 FATs, total_sectors_32 = 2000000, fat_size_32 = 7813,
root cluster 2, FSInfo sector 1, backup sector 6, valid signature. -/
def bugBootByte (i : Nat) : Nat :=
  if i = 11 then 0x00 else if i = 12 then 0x02
  else if i = 13 then 8
  else if i = 14 then 0x20 else if i = 15 then 0x00
  else if i = 16 then 2
  else if i = 21 then 0xF8
  else if i = 32 then 0x80 else if i = 33 then 0x84 else if i = 34 then 0x1E
  else if i = 35 then 0x00
  else if i = 36 then 0x85 else if i = 37 then 0x1E else if i = 38 then 0x00
  else if i = 39 then 0x00
  else if i = 44 then 2
  else if i = 48 then 1
  else if i = 50 then 6
  else if i = 510 then 0x55 else if i = 511 then 0xAA
  else 0

def bugBoot : BootSector := ⟨(List.range 512).map bugBootByte⟩

/-- FAT-0 prefix for the failing instance: entries 0 and 1 reserved, cluster 2
end-of-chain (in use), cluster 3 free. -/
def bugFat : List Nat := [0x0FFFFFF8, 0x0FFFFFFF, 0x0FFFFFFF, 0]

set_option maxRecDepth 8000 in
/-- The concrete relocation plan: one move, of cluster 2, shifted by 8 sectors
(computed via the permutation property of the sort, since the sort itself is
defined by well-founded recursion and does not evaluate by kernel reduction). -/
theorem bugPlanMoves :
    (plan_relocation bugBoot bugFat 2 2 999471).moves =
      [{ from_cluster := 2, to_cluster := 2, from_sector := 15658,
         to_sector := 15666 }] :=
  List.perm_singleton.mp ((List.mergeSort_perm _ _).trans (by decide))

set_option maxRecDepth 8000 in
/-- C1 (code bug).  On the failing input, the calculator reports a FAT growth
of 3 sectors per copy with affected-cluster range 2..2, and `plan_relocation`
then records the move of cluster 2 with `to_sector − from_sector = 8` — the
cluster-aligned round-up `ceil(3·2/8)·8` — instead of the
`fat_growth_sectors * num_fats = 6` that the claim (and the boot-sector
geometry written by the resize) requires. -/
theorem plan_relocation_shift_mismatch :
    (Except.map (fun c => (c.fat_growth_sectors, c.first_affected_cluster,
        c.last_affected_cluster, c.new_data_clusters))
      (calculate_new_size bugBoot 8011432) = .ok (3, 2, 2, 999471)) ∧
    ((plan_relocation bugBoot bugFat 2 2 999471).moves.map
      (fun m => (m.from_cluster, m.from_sector, m.to_sector)) =
      [(2, 15658, 15666)]) ∧
    15666 - 15658 ≠ 3 * 2 := by
  refine ⟨by decide, ?_, by decide⟩
  rw [bugPlanMoves]
  decide

/-! ## C2: relocation plan ordering and move safety -/

/-- The function recording a single candidate move in `plan_relocation`. -/
def planMoveFn (boot : BootSector) (fat : List Nat)
    (first_affected last_affected : Nat) : Nat → Option ClusterMove :=
  fun cluster =>
    let old_first_data_sector := boot.first_data_sector
    let sectors_per_cluster := boot.sectors_per_cluster
    let new_first_data_sector := old_first_data_sector +
      (last_affected - first_affected + 1) * sectors_per_cluster
    let entry := fat.getD cluster 0
    if fat_entry.is_free entry then none
    else
      let old_sector := old_first_data_sector + (cluster - 2) * sectors_per_cluster
      let new_sector := new_first_data_sector + (cluster - 2) * sectors_per_cluster
      if old_sector ≠ new_sector then
        some { from_cluster := cluster, to_cluster := cluster,
               from_sector := old_sector, to_sector := new_sector }
      else none

/-- The moves of a relocation plan are the sort (by descending cluster) of the
moves recorded over the walked cluster range. -/
theorem plan_relocation_moves_eq (boot : BootSector) (fat : List Nat)
    (first_affected last_affected ndc : Nat) :
    (plan_relocation boot fat first_affected last_affected ndc).moves =
      ((List.range' first_affected
          (min (boot.data_clusters + 2) fat.length - first_affected)).filterMap
        (planMoveFn boot fat first_affected last_affected)).mergeSort
        (fun a b => decide (b.from_cluster ≤ a.from_cluster)) := rfl

/-- Shape of a recorded move. -/
theorem planMoveFn_some (boot : BootSector) (fat : List Nat)
    (fa la : Nat) (c : Nat) (mv : ClusterMove)
    (h : planMoveFn boot fat fa la c = some mv) :
    mv.from_cluster = c ∧
    mv.from_sector = boot.first_data_sector + (c - 2) * boot.sectors_per_cluster ∧
    mv.to_sector = mv.from_sector + (la - fa + 1) * boot.sectors_per_cluster ∧
    mv.from_sector ≠ mv.to_sector := by
  unfold planMoveFn at h
  by_cases hfree : fat_entry.is_free (fat.getD c 0)
  · rw [if_pos hfree] at h
    exact Option.noConfusion h
  · rw [if_neg hfree] at h
    by_cases hne : boot.first_data_sector + (c - 2) * boot.sectors_per_cluster ≠
        boot.first_data_sector + (la - fa + 1) * boot.sectors_per_cluster +
          (c - 2) * boot.sectors_per_cluster
    · rw [if_pos hne] at h
      injection h with h
      subst h
      refine ⟨rfl, rfl, by dsimp only; omega, by dsimp only; omega⟩
    · rw [if_neg hne] at h
      exact Option.noConfusion h

/-- C2.  Every relocation plan lists its moves in strictly descending
cluster-number order; every recorded move has `to_sector > from_sector`; and
(as `execute_relocation` processes the list front to back) the destination
sector range of each move is disjoint from the source sector range of every
move that comes later in the list.  The hypotheses `2 ≤ first_affected ≤
last_affected` reflect the calculator's outputs (`first = 2`,
`last = 2 + affected − 1`), under which the source's u32 subtractions cannot
underflow. -/
theorem plan_relocation_ordering (boot : BootSector) (fat : List Nat)
    (first_affected last_affected ndc : Nat)
    (_h2 : 2 ≤ first_affected) (_hle : first_affected ≤ last_affected) :
    List.Pairwise (fun a b : ClusterMove => b.from_cluster < a.from_cluster)
      (plan_relocation boot fat first_affected last_affected ndc).moves ∧
    (∀ mv ∈ (plan_relocation boot fat first_affected last_affected ndc).moves,
      mv.from_sector < mv.to_sector) ∧
    List.Pairwise (fun a b : ClusterMove => ∀ s,
      b.from_sector ≤ s → s < b.from_sector + boot.sectors_per_cluster →
      ¬ (a.to_sector ≤ s ∧ s < a.to_sector + boot.sectors_per_cluster))
      (plan_relocation boot fat first_affected last_affected ndc).moves := by
  rw [plan_relocation_moves_eq]
  set f := planMoveFn boot fat first_affected last_affected with hf
  set rng := List.range' first_affected
    (min (boot.data_clusters + 2) fat.length - first_affected) with hrng
  set cmpMv := fun a b : ClusterMove => decide (b.from_cluster ≤ a.from_cluster) with hlef
  -- the unsorted move list
  have hperm : List.Perm ((rng.filterMap f).mergeSort cmpMv) (rng.filterMap f) :=
    List.mergeSort_perm _ _
  -- every member of the sorted list is a recorded move
  have hmem : ∀ mv ∈ (rng.filterMap f).mergeSort cmpMv,
      mv.from_sector = boot.first_data_sector +
        (mv.from_cluster - 2) * boot.sectors_per_cluster ∧
      mv.to_sector = mv.from_sector +
        (last_affected - first_affected + 1) * boot.sectors_per_cluster ∧
      mv.from_sector ≠ mv.to_sector := by
    intro mv hmv
    have : mv ∈ rng.filterMap f := hperm.mem_iff.mp hmv
    obtain ⟨c, _, hc⟩ := List.mem_filterMap.mp this
    obtain ⟨hc1, hc2, hc3, hc4⟩ := planMoveFn_some boot fat _ _ c mv hc
    exact ⟨hc1 ▸ hc2, hc3, hc4⟩
  -- keys are strictly increasing in the unsorted list, hence pairwise distinct
  have hkeys : List.Pairwise
      (fun a b : ClusterMove => a.from_cluster ≠ b.from_cluster)
      (rng.filterMap f) := by
    rw [List.pairwise_filterMap]
    have : List.Pairwise (· < ·) rng := by
      rw [hrng]
      exact List.pairwise_lt_range' _ _ 1 (by simp)
    refine this.imp_of_mem ?_
    intro a b _ _ hab mva hmva mvb hmvb
    have ha := (planMoveFn_some boot fat _ _ a mva hmva).1
    have hb := (planMoveFn_some boot fat _ _ b mvb hmvb).1
    omega
  have hkeys' : List.Pairwise
      (fun a b : ClusterMove => a.from_cluster ≠ b.from_cluster)
      ((rng.filterMap f).mergeSort cmpMv) :=
    ((hperm.pairwise_iff (fun h => h.symm)).mpr) hkeys
  -- the sort yields descending keys
  have hsorted : List.Pairwise (fun a b : ClusterMove => cmpMv a b)
      ((rng.filterMap f).mergeSort cmpMv) := by
    refine List.sorted_mergeSort ?_ ?_ _
    · intro a b c hab hbc
      simp only [hlef, decide_eq_true_eq] at *
      omega
    · intro a b
      simp only [hlef, Bool.or_eq_true, decide_eq_true_eq]
      omega
  have hdesc : List.Pairwise
      (fun a b : ClusterMove => b.from_cluster < a.from_cluster)
      ((rng.filterMap f).mergeSort cmpMv) := by
    refine (hsorted.and hkeys').imp ?_
    rintro a b ⟨hab, hne⟩
    simp only [hlef, decide_eq_true_eq] at hab
    omega
  refine ⟨hdesc, ?_, ?_⟩
  · -- forward shift
    intro mv hmv
    obtain ⟨-, h2', h3'⟩ := hmem mv hmv
    omega
  · -- destination/source disjointness along the execution order
    refine hdesc.imp_of_mem ?_
    intro a b hma hmb hab
    obtain ⟨ha1, ha2, ha3⟩ := hmem a hma
    obtain ⟨hb1, hb2, hb3⟩ := hmem b hmb
    -- the shift is a positive multiple of the cluster size
    have hspc : (last_affected - first_affected + 1) * boot.sectors_per_cluster ≥
        boot.sectors_per_cluster := by
      have : 1 ≤ last_affected - first_affected + 1 := by omega
      calc boot.sectors_per_cluster = 1 * boot.sectors_per_cluster := by omega
        _ ≤ (last_affected - first_affected + 1) * boot.sectors_per_cluster :=
          Nat.mul_le_mul_right _ this
    have hmono : (b.from_cluster - 2) * boot.sectors_per_cluster ≤
        (a.from_cluster - 2) * boot.sectors_per_cluster :=
      Nat.mul_le_mul_right _ (by omega)
    intro s hs1 hs2
    omega

/-- Witness for C2 at the concrete failing-free instance used for C1: boot
geometry with spc = 8, two in-use clusters. -/
theorem plan_relocation_ordering_witness :
    (2 ≤ 2 ∧ 2 ≤ 2) ∧
    (List.Pairwise (fun a b : ClusterMove => b.from_cluster < a.from_cluster)
      (plan_relocation bugBoot bugFat 2 2 999471).moves ∧
    (∀ mv ∈ (plan_relocation bugBoot bugFat 2 2 999471).moves,
      mv.from_sector < mv.to_sector) ∧
    List.Pairwise (fun a b : ClusterMove => ∀ s,
      b.from_sector ≤ s → s < b.from_sector + bugBoot.sectors_per_cluster →
      ¬ (a.to_sector ≤ s ∧ s < a.to_sector + bugBoot.sectors_per_cluster))
      (plan_relocation bugBoot bugFat 2 2 999471).moves) :=
  ⟨⟨le_refl 2, le_refl 2⟩,
    plan_relocation_ordering bugBoot bugFat 2 2 999471 (le_refl 2) (le_refl 2)⟩

/-! ## Device read/write lemmas -/

theorem read_sector_length (d : Dev) (s : Nat) :
    (d.read_sector s).length = d.sectorSize := by
  simp [Dev.read_sector, Dev.read_sectors, Dev.read_bytes_at]

theorem writeBytesIn_length (l bs : List Nat) (off : Nat)
    (h : off + bs.length ≤ l.length) : (writeBytesIn l off bs).length = l.length := by
  simp [writeBytesIn]
  omega

theorem getD_writeBytesIn_inside (l bs : List Nat) (off j : Nat)
    (hj : j < bs.length) (h : off + bs.length ≤ l.length) :
    (writeBytesIn l off bs).getD (off + j) 0 = bs.getD j 0 := by
  unfold writeBytesIn
  have htk : (l.take off).length = off := by simp; omega
  rw [List.append_assoc, List.getD_append_right _ _ _ _ (by omega), htk]
  have : off + j - off = j := by omega
  rw [this, List.getD_append _ _ _ _ (by omega)]

/-- Successful single-sector write: resulting device state. -/
theorem write_sector_ok (d : Dev) (s : Nat) (data : List Nat)
    (hro : d.ro = false) (hlen : data.length = d.sectorSize) :
    d.write_sector s data = .ok
      { d with
        bytes := fun i =>
          if s * d.sectorSize ≤ i ∧ i < s * d.sectorSize + data.length then
            data.getD (i - s * d.sectorSize) 0
          else d.bytes i,
        writes := d.writes + 1 } := by
  unfold Dev.write_sector Dev.write_sectors Dev.write_bytes_at
  rw [if_neg (by omega), if_neg (by simp [hro])]

/-- Reading a sector disjoint from the written byte range is unchanged. -/
theorem read_sector_write_frame (d : Dev) (s t : Nat) (data : List Nat)
    (hdisj : ∀ i, t * d.sectorSize ≤ i → i < t * d.sectorSize + d.sectorSize →
      ¬ (s * d.sectorSize ≤ i ∧ i < s * d.sectorSize + data.length)) :
    Dev.read_sector
      { d with
        bytes := fun i =>
          if s * d.sectorSize ≤ i ∧ i < s * d.sectorSize + data.length then
            data.getD (i - s * d.sectorSize) 0
          else d.bytes i,
        writes := d.writes + 1 } t = d.read_sector t := by
  unfold Dev.read_sector Dev.read_sectors Dev.read_bytes_at
  dsimp only
  refine List.map_congr_left ?_
  intro i hi
  have hi' : i < d.sectorSize := by
    have := List.mem_range.mp hi
    omega
  have := hdisj (t * d.sectorSize + i) (by omega) (by omega)
  simp only [if_neg this]

/-- Reading back the sector just written returns the written data. -/
theorem read_sector_write_readback (d : Dev) (s : Nat) (data : List Nat)
    (hlen : data.length = d.sectorSize) :
    Dev.read_sector
      { d with
        bytes := fun i =>
          if s * d.sectorSize ≤ i ∧ i < s * d.sectorSize + data.length then
            data.getD (i - s * d.sectorSize) 0
          else d.bytes i,
        writes := d.writes + 1 } s = data := by
  unfold Dev.read_sector Dev.read_sectors Dev.read_bytes_at
  dsimp only
  have : ∀ i ∈ List.range (1 * d.sectorSize),
      (fun i =>
        if s * d.sectorSize ≤ i ∧ i < s * d.sectorSize + data.length then
          data.getD (i - s * d.sectorSize) 0
        else d.bytes i) (s * d.sectorSize + i) = data.getD i 0 := by
    intro i hi
    have hi' : i < d.sectorSize := by
      have := List.mem_range.mp hi
      omega
    have hcond : s * d.sectorSize ≤ s * d.sectorSize + i ∧
        s * d.sectorSize + i < s * d.sectorSize + data.length := by omega
    simp only [if_pos hcond]
    congr 1
    omega
  rw [List.map_congr_left this]
  -- map of getD over the index range recovers the list
  have hlen1 : 1 * d.sectorSize = data.length := by omega
  rw [hlen1]
  apply List.ext_getElem
  · simp
  · intro i h1 h2
    simp [List.getD_eq_getElem?_getD, List.getElem?_eq_getElem h2]

/-- Bytes within distinct sectors occupy disjoint byte ranges. -/
theorem sector_ranges_disjoint (ss s t i : Nat) (hne : s ≠ t)
    (h1 : t * ss ≤ i) (h2 : i < t * ss + ss) :
    ¬ (s * ss ≤ i ∧ i < s * ss + ss) := by
  rintro ⟨h3, h4⟩
  rcases Nat.lt_or_ge s t with h | h
  · have : s * ss + ss ≤ t * ss := by
      calc s * ss + ss = (s + 1) * ss := by ring
        _ ≤ t * ss := Nat.mul_le_mul_right _ (by omega)
    omega
  · have hst : t < s := by omega
    have : t * ss + ss ≤ s * ss := by
      calc t * ss + ss = (t + 1) * ss := by ring
        _ ≤ s * ss := Nat.mul_le_mul_right _ (by omega)
    omega

/-! ## C7: FAT-entry read-modify-write preserves the reserved top bits -/

/-- The sector holding cluster `cluster`'s FAT entry in copy `k` (as computed
by `write_fat_entry_with_size`). -/
def fatEntrySector (boot : BootSector) (fat_size cluster k : Nat) : Nat :=
  boot.first_fat_sector + k * fat_size + cluster / (boot.bytes_per_sector / 4)

/-- The byte offset of the entry within its sector. -/
def fatEntryOffset (boot : BootSector) (cluster : Nat) : Nat :=
  cluster % (boot.bytes_per_sector / 4) * 4

/-- The value stored by one read-modify-write step. -/
def rmwValue (value existing : Nat) : Nat :=
  value &&& 0x0FFFFFFF ||| existing &&& 0xF0000000

theorem rmwValue_lt (value existing : Nat) : rmwValue value existing < 4294967296 := by
  have h1 : value &&& 0x0FFFFFFF < 2 ^ 32 :=
    Nat.lt_of_le_of_lt Nat.and_le_right (by norm_num)
  have h2 : existing &&& 0xF0000000 < 2 ^ 32 :=
    Nat.lt_of_le_of_lt Nat.and_le_right (by norm_num)
  have := Nat.or_lt_two_pow h1 h2
  simpa [rmwValue] using this

theorem readLe32_writeBytesIn (l : List Nat) (off nv : Nat)
    (hoff : off + 4 ≤ l.length) (hnv : nv < 4294967296) :
    readLe32 (writeBytesIn l off (le32Bytes nv)) off = nv := by
  have h0 : (writeBytesIn l off (le32Bytes nv)).getD off 0 = nv % 256 := by
    have := getD_writeBytesIn_inside l (le32Bytes nv) off 0 (by simp [le32Bytes])
      (by simp [le32Bytes]; omega)
    simpa using this
  have h1 : (writeBytesIn l off (le32Bytes nv)).getD (off + 1) 0 =
      nv / 256 % 256 :=
    (getD_writeBytesIn_inside l (le32Bytes nv) off 1 (by simp [le32Bytes])
      (by simp [le32Bytes]; omega)).trans rfl
  have h2 : (writeBytesIn l off (le32Bytes nv)).getD (off + 2) 0 =
      nv / 65536 % 256 :=
    (getD_writeBytesIn_inside l (le32Bytes nv) off 2 (by simp [le32Bytes])
      (by simp [le32Bytes]; omega)).trans rfl
  have h3 : (writeBytesIn l off (le32Bytes nv)).getD (off + 3) 0 =
      nv / 16777216 % 256 :=
    (getD_writeBytesIn_inside l (le32Bytes nv) off 3 (by simp [le32Bytes])
      (by simp [le32Bytes]; omega)).trans rfl
  unfold readLe32
  rw [h0, h1, h2, h3]
  omega

/-- One `writeFatEntryStep` succeeds and its effect on the device is the
explicit byte-store update. -/
theorem writeFatEntryStep_ok (boot : BootSector) (cluster value fat_size : Nat)
    (e : Dev) (k : Nat) (hro : e.ro = false)
    (hss : e.sectorSize = boot.bytes_per_sector)
    (hoff : fatEntryOffset boot cluster + 4 ≤ boot.bytes_per_sector) :
    writeFatEntryStep boot cluster value fat_size e k = .ok
      { e with
        bytes := fun i =>
          if fatEntrySector boot fat_size cluster k * e.sectorSize ≤ i ∧
              i < fatEntrySector boot fat_size cluster k * e.sectorSize + e.sectorSize then
            (writeBytesIn (e.read_sector (fatEntrySector boot fat_size cluster k))
              (fatEntryOffset boot cluster)
              (le32Bytes (rmwValue value
                (readLe32 (e.read_sector (fatEntrySector boot fat_size cluster k))
                  (fatEntryOffset boot cluster))))).getD
              (i - fatEntrySector boot fat_size cluster k * e.sectorSize) 0
          else e.bytes i,
        writes := e.writes + 1 } := by
  have hrl : (e.read_sector (fatEntrySector boot fat_size cluster k)).length =
      e.sectorSize := read_sector_length _ _
  have hwl : (writeBytesIn (e.read_sector (fatEntrySector boot fat_size cluster k))
      (fatEntryOffset boot cluster)
      (le32Bytes (rmwValue value
        (readLe32 (e.read_sector (fatEntrySector boot fat_size cluster k))
          (fatEntryOffset boot cluster))))).length = e.sectorSize := by
    rw [writeBytesIn_length]
    · exact hrl
    · simp only [le32Bytes, List.length_cons, List.length_nil]
      omega
  have := write_sector_ok e (fatEntrySector boot fat_size cluster k)
    (writeBytesIn (e.read_sector (fatEntrySector boot fat_size cluster k))
      (fatEntryOffset boot cluster)
      (le32Bytes (rmwValue value
        (readLe32 (e.read_sector (fatEntrySector boot fat_size cluster k))
          (fatEntryOffset boot cluster))))) hro hwl
  rw [hwl] at this
  exact this

/-- Two devices agreeing byte-for-byte on a sector's range read it equally. -/
theorem read_sector_congr (d d' : Dev) (t : Nat)
    (hss : d'.sectorSize = d.sectorSize)
    (h : ∀ i, t * d.sectorSize ≤ i → i < t * d.sectorSize + d.sectorSize →
      d'.bytes i = d.bytes i) :
    d'.read_sector t = d.read_sector t := by
  unfold Dev.read_sector Dev.read_sectors Dev.read_bytes_at
  rw [hss]
  refine List.map_congr_left ?_
  intro i hi
  have hi' : i < d.sectorSize := by
    have := List.mem_range.mp hi
    omega
  exact h (t * d.sectorSize + i) (by omega) (by omega)

/-- FAT copies place a given cluster's entry in pairwise distinct sectors
whenever the FAT size is positive. -/
theorem fatEntrySector_injective (boot : BootSector) (fat_size cluster : Nat)
    (hfs : 0 < fat_size) (k k' : Nat) (hkk : k ≠ k') :
    fatEntrySector boot fat_size cluster k ≠ fatEntrySector boot fat_size cluster k' := by
  unfold fatEntrySector
  intro heq
  have hmul : k * fat_size = k' * fat_size := by omega
  exact hkk (Nat.eq_of_mul_eq_mul_right hfs hmul)

/-- Induction over the FAT copies: the fold of `writeFatEntryStep` over
`range' s m` succeeds, leaves bytes outside the touched entry sectors intact,
and leaves each touched entry sector holding the spliced RMW value computed
from the device state before the fold. -/
theorem writeFatEntry_fold_spec (boot : BootSector) (cluster value fat_size : Nat)
    (hfs : 0 < fat_size)
    (hoff : fatEntryOffset boot cluster + 4 ≤ boot.bytes_per_sector) :
    ∀ (m s : Nat) (e : Dev), e.ro = false → e.sectorSize = boot.bytes_per_sector →
    ∃ e', (List.range' s m).foldlM
        (writeFatEntryStep boot cluster value fat_size) e = .ok e' ∧
      e'.ro = e.ro ∧ e'.sectorSize = e.sectorSize ∧
      (∀ i, (∀ k, s ≤ k → k < s + m →
          ¬ (fatEntrySector boot fat_size cluster k * e.sectorSize ≤ i ∧
            i < fatEntrySector boot fat_size cluster k * e.sectorSize + e.sectorSize)) →
        e'.bytes i = e.bytes i) ∧
      (∀ k, s ≤ k → k < s + m →
        e'.read_sector (fatEntrySector boot fat_size cluster k) =
          writeBytesIn (e.read_sector (fatEntrySector boot fat_size cluster k))
            (fatEntryOffset boot cluster)
            (le32Bytes (rmwValue value
              (readLe32 (e.read_sector (fatEntrySector boot fat_size cluster k))
                (fatEntryOffset boot cluster))))) := by
  intro m
  induction m with
  | zero =>
    intro s e hro hss
    exact ⟨e, rfl, rfl, rfl, fun i _ => rfl, fun k hk1 hk2 => by omega⟩
  | succ m ih =>
    intro s e hro hss
    -- the first step writes the entry sector of copy `s`
    have hstep := writeFatEntryStep_ok boot cluster value fat_size e s hro hss hoff
    set written := writeBytesIn (e.read_sector (fatEntrySector boot fat_size cluster s))
      (fatEntryOffset boot cluster)
      (le32Bytes (rmwValue value
        (readLe32 (e.read_sector (fatEntrySector boot fat_size cluster s))
          (fatEntryOffset boot cluster)))) with hwr
    have hwl : written.length = e.sectorSize := by
      rw [hwr, writeBytesIn_length]
      · exact read_sector_length _ _
      · rw [read_sector_length]
        simp only [le32Bytes, List.length_cons, List.length_nil]
        omega
    set e1 : Dev :=
      { e with
        bytes := fun i =>
          if fatEntrySector boot fat_size cluster s * e.sectorSize ≤ i ∧
              i < fatEntrySector boot fat_size cluster s * e.sectorSize + e.sectorSize then
            written.getD (i - fatEntrySector boot fat_size cluster s * e.sectorSize) 0
          else e.bytes i,
        writes := e.writes + 1 } with he1
    obtain ⟨e', hfold, hro', hss', hframe', hsect'⟩ :=
      ih (s + 1) e1 hro (by rw [he1]; exact hss)
    have he1frame : ∀ t, t ≠ fatEntrySector boot fat_size cluster s →
        e1.read_sector t = e.read_sector t := by
      intro t ht
      have hfr := read_sector_write_frame e (fatEntrySector boot fat_size cluster s)
        t written (by
          intro i hi1 hi2
          rw [hwl]
          exact sector_ranges_disjoint e.sectorSize _ t i
            (fun hc => ht hc.symm) hi1 hi2)
      rw [hwl] at hfr
      exact hfr
    refine ⟨e', ?_, hro'.trans rfl, hss'.trans rfl, ?_, ?_⟩
    · rw [List.range'_succ]
      simpa only [List.foldlM_cons, hstep] using hfold
    · intro i hi
      have h1 : e'.bytes i = e1.bytes i := by
        refine hframe' i ?_
        intro k hk1 hk2
        have := hi k (by omega) (by omega)
        rw [show e1.sectorSize = e.sectorSize from rfl]
        exact this
      rw [h1, he1]
      have := hi s (by omega) (by omega)
      simp only [if_neg this]
    · intro k hk1 hk2
      rcases Nat.eq_or_lt_of_le hk1 with heq | hlt
      · -- k = s: read back the written sector, untouched by later steps
        rw [← heq]
        have hskip : e'.read_sector (fatEntrySector boot fat_size cluster s) =
            e1.read_sector (fatEntrySector boot fat_size cluster s) := by
          refine read_sector_congr e1 e' _ (hss'.trans rfl) ?_
          intro i hi1 hi2
          refine hframe' i ?_
          intro k' hk'1 hk'2
          rw [show e1.sectorSize = e.sectorSize from rfl] at *
          exact sector_ranges_disjoint e.sectorSize _ _ i
            (fatEntrySector_injective boot fat_size cluster hfs k' s (by omega))
            hi1 hi2
        rw [hskip, he1]
        have hrb := read_sector_write_readback e
          (fatEntrySector boot fat_size cluster s) written hwl
        rw [hwl] at hrb
        exact hrb
      · -- k > s: the first write leaves this sector alone
        have hksect := hsect' k (by omega) (by omega)
        have hne : fatEntrySector boot fat_size cluster k ≠
            fatEntrySector boot fat_size cluster s :=
          fatEntrySector_injective boot fat_size cluster hfs k s (by omega)
        rw [hksect, he1frame _ hne]

/-- C7.  For every cluster and value, `write_fat_entry` (which is
`write_fat_entry_with_size` at the boot sector's FAT size) stores in each FAT
copy the 32-bit entry `(value & 0x0FFFFFFF) | (old_entry & 0xF0000000)`: the
top 4 bits of the prior on-disk entry are preserved exactly by each
read-modify-write, and only the low 28 bits take the new value.  Hypotheses:
the device is writable, its sector size equals the boot sector's (both are set
up that way by the callers), the sector size is a valid FAT32 size, and the
FAT size is positive (so the copies' entry sectors are distinct). -/
theorem write_fat_entry_preserves_reserved_bits (d : Dev) (boot : BootSector)
    (cluster value fat_size : Nat) (hro : d.ro = false)
    (hss : d.sectorSize = boot.bytes_per_sector)
    (hbps : boot.bytes_per_sector ∈ VALID_SECTOR_SIZES) (hfs : 0 < fat_size) :
    ∃ d', write_fat_entry_with_size d boot cluster value fat_size = .ok d' ∧
      write_fat_entry d boot cluster value =
        write_fat_entry_with_size d boot cluster value boot.fat_size ∧
      ∀ k, k < boot.num_fats →
        readLe32 (d'.read_sector (fatEntrySector boot fat_size cluster k))
            (fatEntryOffset boot cluster) =
          value &&& 0x0FFFFFFF |||
            readLe32 (d.read_sector (fatEntrySector boot fat_size cluster k))
              (fatEntryOffset boot cluster) &&& 0xF0000000 := by
  have hoff : fatEntryOffset boot cluster + 4 ≤ boot.bytes_per_sector := by
    have h4 : boot.bytes_per_sector = 512 ∨ boot.bytes_per_sector = 1024 ∨
        boot.bytes_per_sector = 2048 ∨ boot.bytes_per_sector = 4096 := by
      simpa [VALID_SECTOR_SIZES] using hbps
    unfold fatEntryOffset
    rcases h4 with h | h | h | h <;> rw [h]
    · have := Nat.mod_lt cluster (show 0 < 512 / 4 by norm_num)
      omega
    · have := Nat.mod_lt cluster (show 0 < 1024 / 4 by norm_num)
      omega
    · have := Nat.mod_lt cluster (show 0 < 2048 / 4 by norm_num)
      omega
    · have := Nat.mod_lt cluster (show 0 < 4096 / 4 by norm_num)
      omega
  obtain ⟨e', hfold, _, _, _, hsect⟩ :=
    writeFatEntry_fold_spec boot cluster value fat_size hfs hoff
      boot.num_fats 0 d hro hss
  refine ⟨e', ?_, rfl, ?_⟩
  · unfold write_fat_entry_with_size
    rw [List.range_eq_range']
    exact hfold
  · intro k hk
    rw [hsect k (by omega) (by omega)]
    have hlen : fatEntryOffset boot cluster + 4 ≤
        (d.read_sector (fatEntrySector boot fat_size cluster k)).length := by
      rw [read_sector_length, hss]
      exact hoff
    exact readLe32_writeBytesIn _ _ _ hlen (rmwValue_lt _ _)

/-- A concrete all-zero writable device with 512-byte sectors. -/
def zeroDev : Dev :=
  { bytes := fun _ => 0, byteSize := 1024000512, sectorSize := 512, ro := false,
    writes := 0, syncs := 0 }

set_option maxRecDepth 8000 in
/-- Witness for C7: concrete device and boot sector, cluster 5, a value with
all top bits set in the argument. -/
theorem write_fat_entry_preserves_reserved_bits_witness :
    ∃ d', write_fat_entry_with_size zeroDev bugBoot 5 0xFFFFFFFF 7813 = .ok d' ∧
      write_fat_entry zeroDev bugBoot 5 0xFFFFFFFF =
        write_fat_entry_with_size zeroDev bugBoot 5 0xFFFFFFFF bugBoot.fat_size ∧
      ∀ k, k < bugBoot.num_fats →
        readLe32 (d'.read_sector (fatEntrySector bugBoot 7813 5 k))
            (fatEntryOffset bugBoot 5) =
          0xFFFFFFFF &&& 0x0FFFFFFF |||
            readLe32 (zeroDev.read_sector (fatEntrySector bugBoot 7813 5 k))
              (fatEntryOffset bugBoot 5) &&& 0xF0000000 :=
  write_fat_entry_preserves_reserved_bits zeroDev bugBoot 5 0xFFFFFFFF 7813
    rfl (by decide) (by decide) (by decide)

/-! ## C9: a dry run performs zero writes and zero syncs -/

/-- Reading the boot sector only adjusts the in-memory sector size: the byte
store, the size, the read-only flag and both effect counters are untouched. -/
theorem read_boot_preserves (d : Dev) (boot : BootSector) (d' : Dev)
    (h : read_boot_sector_for_recovery d = .ok (boot, d')) :
    d'.bytes = d.bytes ∧ d'.byteSize = d.byteSize ∧ d'.ro = d.ro ∧
    d'.writes = d.writes ∧ d'.syncs = d.syncs := by
  unfold read_boot_sector_for_recovery at h
  dsimp only at h
  split at h
  · exact Except.noConfusion h
  · split at h
    · exact Except.noConfusion h
    · split at h
      · exact Except.noConfusion h
      · split at h
        · exact Except.noConfusion h
        · cases h
          exact ⟨rfl, rfl, rfl, rfl, rfl⟩

theorem finish_resize_dry (opts : ResizeOptions) (d : Dev) (boot : BootSector)
    (fsinfo : FSInfo) (sc : SizeCalculation) (bs fs cr os ns : Nat)
    (ops : List String) (hdry : opts.dry_run = true) :
    (finish_resize opts d boot fsinfo sc bs fs cr os ns ops).2 = d ∧
    ∀ r, (finish_resize opts d boot fsinfo sc bs fs cr os ns ops).1 = .ok r →
      r.operations ≠ [] := by
  unfold finish_resize
  rw [if_neg (not_not_intro hdry)]
  refine ⟨rfl, ?_⟩
  intro r hr
  cases hr
  simp

theorem resize_phases_dry (opts : ResizeOptions) (d : Dev) (boot : BootSector)
    (fsinfo : FSInfo) (sc : SizeCalculation) (fat : List Nat)
    (sp : ResizePhase) (bs fs os ns : Nat) (ops : List String)
    (hdry : opts.dry_run = true) :
    (resize_phases opts d boot fsinfo sc fat sp bs fs os ns ops).2 = d ∧
    ∀ r, (resize_phases opts d boot fsinfo sc fat sp bs fs os ns ops).1 = .ok r →
      r.operations ≠ [] := by
  unfold resize_phases
  dsimp only
  split_ifs <;>
    first
      | exact absurd hdry (by assumption)
      | exact finish_resize_dry _ _ _ _ _ _ _ _ _ _ _ hdry

theorem resize_after_resume_check_dry (opts : ResizeOptions) (d : Dev)
    (boot : BootSector) (inc : Option ResizeCheckpoint) (ops : List String)
    (hdry : opts.dry_run = true) :
    (resize_after_resume_check opts d boot inc ops).2 = d ∧
    ∀ r, (resize_after_resume_check opts d boot inc ops).1 = .ok r →
      r.operations ≠ [] := by
  unfold resize_after_resume_check
  dsimp only
  split
  · exact ⟨rfl, fun r hr => Except.noConfusion hr⟩
  · split
    · exact ⟨rfl, fun r hr => Except.noConfusion hr⟩
    · split
      · exact ⟨rfl, fun r hr => Except.noConfusion hr⟩
      · split
        · exact ⟨rfl, fun r hr => Except.noConfusion hr⟩
        · exact resize_phases_dry opts d boot _ _ _ _ _ _ _ _ _ hdry

/-- C9.  A dry run never writes: for every option record with
`dry_run = true` and every device, the byte store, the total byte size, the
write counter and the sync counter after `resize_fat32` all equal their
initial values (the device is opened read-only in the model, all writes sit
behind `if !dry_run` branches), and a successful run still returns a non-empty
operation log together with its calculation and plan-derived fields. -/
theorem resize_dry_run_no_writes (opts : ResizeOptions) (dev : Dev)
    (hdry : opts.dry_run = true) :
    (resize_fat32 opts dev).2.bytes = dev.bytes ∧
    (resize_fat32 opts dev).2.byteSize = dev.byteSize ∧
    (resize_fat32 opts dev).2.writes = dev.writes ∧
    (resize_fat32 opts dev).2.syncs = dev.syncs ∧
    ∀ r, (resize_fat32 opts dev).1 = .ok r → r.operations ≠ [] := by
  unfold resize_fat32
  dsimp only
  split
  · exact ⟨rfl, rfl, rfl, rfl, fun r hr => Except.noConfusion hr⟩
  · rename_i boot d1 hread
    obtain ⟨hb, hsz, hro, hw, hs⟩ := read_boot_preserves _ _ _ hread
    rw [if_neg (not_not_intro hdry)]
    have hrest := resize_after_resume_check_dry opts d1 boot none
      (["Verified device is not mounted", "Opened device"] ++ ["Read boot sector"])
      hdry
    rw [hrest.1]
    exact ⟨hb, hsz, hw, hs, hrest.2⟩

/-- Witness for C9 on a concrete dry-run invocation. -/
theorem resize_dry_run_no_writes_witness :
    ((resize_fat32 ⟨"dev", true, false⟩ zeroDev).2.bytes = zeroDev.bytes ∧
      (resize_fat32 ⟨"dev", true, false⟩ zeroDev).2.byteSize = zeroDev.byteSize ∧
      (resize_fat32 ⟨"dev", true, false⟩ zeroDev).2.writes = zeroDev.writes ∧
      (resize_fat32 ⟨"dev", true, false⟩ zeroDev).2.syncs = zeroDev.syncs ∧
      ∀ r, (resize_fat32 ⟨"dev", true, false⟩ zeroDev).1 = .ok r →
        r.operations ≠ []) :=
  resize_dry_run_no_writes ⟨"dev", true, false⟩ zeroDev rfl

/-! ## C8: the FSInfo free count written by the metadata phase -/

theorem exceptBind_ok {α β : Type} {ε : Type} (a : α) (f : α → Except ε β) :
    (Except.ok a : Except ε α) >>= f = f a := rfl

/-- Bytes strictly below the splice offset are untouched. -/
theorem getD_writeBytesIn_below (l bs : List Nat) (off i : Nat) (hi : i < off)
    (hoff : off + bs.length ≤ l.length) :
    (writeBytesIn l off bs).getD i 0 = l.getD i 0 := by
  unfold writeBytesIn
  rw [List.getD_append _ _ _ _ (by simp; omega),
    List.getD_append _ _ _ _ (by simp; omega)]
  simp only [List.getD_eq_getElem?_getD, List.getElem?_take_of_lt hi]

/-- The boot-sector mutations of the metadata phase (total sectors, FAT size,
signature restore) do not change the geometry bytes used for the free-count
computation, and preserve the buffer length. -/
theorem bootMut_fields (boot : BootSector) (a b : Nat)
    (hlen : 512 ≤ boot.raw.length) :
    (((boot.set_total_sectors_32 a).set_fat_size_32 b).restore_signature).reserved_sectors
        = boot.reserved_sectors ∧
    (((boot.set_total_sectors_32 a).set_fat_size_32 b).restore_signature).num_fats
        = boot.num_fats ∧
    (((boot.set_total_sectors_32 a).set_fat_size_32 b).restore_signature).sectors_per_cluster
        = boot.sectors_per_cluster ∧
    (((boot.set_total_sectors_32 a).set_fat_size_32 b).restore_signature).raw.length
        = boot.raw.length := by
  have hL1 : (writeBytesIn boot.raw 32 (le32Bytes a)).length = boot.raw.length :=
    writeBytesIn_length _ _ _ (by simp [le32Bytes]; omega)
  have hL2 : (writeBytesIn (writeBytesIn boot.raw 32 (le32Bytes a)) 36
      (le32Bytes b)).length = boot.raw.length := by
    rw [writeBytesIn_length _ _ _ (by rw [hL1]; simp [le32Bytes]; omega)]
    exact hL1
  have hL3 : (writeBytesIn (writeBytesIn (writeBytesIn boot.raw 32 (le32Bytes a)) 36
      (le32Bytes b)) 510 (le16Bytes BootSector.VALID_SIGNATURE)).length =
      boot.raw.length := by
    rw [writeBytesIn_length _ _ _ (by rw [hL2]; simp [le16Bytes]; omega)]
    exact hL2
  have hbelow : ∀ i, i < 32 →
      ((((boot.set_total_sectors_32 a).set_fat_size_32 b).restore_signature)).raw.getD i 0
        = boot.raw.getD i 0 := by
    intro i hi
    unfold BootSector.restore_signature BootSector.set_fat_size_32
      BootSector.set_total_sectors_32
    rw [getD_writeBytesIn_below _ _ _ _ (by omega) (by rw [hL2]; simp [le16Bytes]; omega),
      getD_writeBytesIn_below _ _ _ _ (by omega) (by rw [hL1]; simp [le32Bytes]; omega),
      getD_writeBytesIn_below _ _ _ _ (by omega) (by simp [le32Bytes]; omega)]
  refine ⟨?_, ?_, ?_, hL3⟩
  · unfold BootSector.reserved_sectors readLe16
    rw [hbelow 14 (by norm_num), hbelow 15 (by norm_num)]
  · unfold BootSector.num_fats
    rw [hbelow 16 (by norm_num)]
  · unfold BootSector.sectors_per_cluster
    rw [hbelow 13 (by norm_num)]

/-- Packaged form of a successful single-sector write: the result exists, the
scalar fields are preserved, the written sector reads back as the data, and
every other sector is unchanged. -/
theorem write_sector_ok' (d : Dev) (s : Nat) (data : List Nat)
    (hro : d.ro = false) (hlen : data.length = d.sectorSize) :
    ∃ d', d.write_sector s data = .ok d' ∧
      d'.sectorSize = d.sectorSize ∧ d'.byteSize = d.byteSize ∧ d'.ro = d.ro ∧
      d'.read_sector s = data ∧
      ∀ t, t ≠ s → d'.read_sector t = d.read_sector t := by
  refine ⟨_, write_sector_ok d s data hro hlen, rfl, rfl, rfl,
    read_sector_write_readback d s data hlen, ?_⟩
  intro t ht
  refine read_sector_write_frame d s t data ?_
  intro i hi1 hi2
  rw [hlen]
  exact sector_ranges_disjoint d.sectorSize s t i (Ne.symm ht) hi1 hi2

/-- C8.  In the metadata phase of a non-dry-run resize, the FSInfo free count
written to disk (and still there after the checkpoint is cleared and the
device synced) is: unchanged at the 0xFFFFFFFF unknown sentinel if the prior
value was the sentinel, and otherwise the old free count saturating-added to
`additional_clusters = new_data_clusters − old_data_clusters` (saturating at
zero), where the old data-cluster count is
`(old_total_sectors − reserved − num_fats·old_fat_size) / spc`.  Hypotheses:
writable device, boot and FSInfo buffers sector-sized, sector size at least
512, and the FSInfo sector is not the device's last sector (where the
checkpoint is cleared). -/
theorem metadataPhase_fsinfo_free_count (d : Dev) (boot : BootSector)
    (fsinfo : FSInfo) (sc : SizeCalculation) (backup_sector fsinfo_sector : Nat)
    (hro : d.ro = false)
    (hblen : boot.raw.length = d.sectorSize)
    (hflen : fsinfo.raw.length = d.sectorSize)
    (hss : 512 ≤ d.sectorSize)
    (hcp : fsinfo_sector ≠ d.total_sectors - 1) :
    ∃ d', metadataPhase d boot fsinfo sc backup_sector fsinfo_sector = .ok d' ∧
      readLe32 (d'.read_sector fsinfo_sector) 488 =
        (if fsinfo.free_count = FSInfo.UNKNOWN_FREE then FSInfo.UNKNOWN_FREE
         else min (fsinfo.free_count +
           (sc.new_data_clusters -
             (sc.old_total_sectors - boot.reserved_sectors -
               boot.num_fats * sc.old_fat_size) / boot.sectors_per_cluster))
           0xFFFFFFFF) := by
  obtain ⟨hres, hnf, hspc, hlenM⟩ :=
    bootMut_fields boot sc.new_total_sectors sc.new_fat_size (by omega)
  set boot' := ((boot.set_total_sectors_32
    sc.new_total_sectors).set_fat_size_32 sc.new_fat_size).restore_signature
    with hb'
  set NF := (if fsinfo.free_count = FSInfo.UNKNOWN_FREE then FSInfo.UNKNOWN_FREE
    else min (fsinfo.free_count +
      (sc.new_data_clusters -
        (sc.old_total_sectors - boot'.reserved_sectors -
          boot'.num_fats * sc.old_fat_size) / boot'.sectors_per_cluster))
      0xFFFFFFFF) with hNF
  have hNFlt : NF < 4294967296 := by
    rw [hNF]
    split
    · norm_num [FSInfo.UNKNOWN_FREE]
    · have := Nat.min_le_right (fsinfo.free_count +
        (sc.new_data_clusters -
          (sc.old_total_sectors - boot'.reserved_sectors -
            boot'.num_fats * sc.old_fat_size) / boot'.sectors_per_cluster))
        0xFFFFFFFF
      omega
  have hb'len : boot'.as_bytes.length = d.sectorSize := by
    rw [show boot'.as_bytes = boot'.raw from rfl, hlenM, hblen]
  obtain ⟨d1, hw1, hss1, hbs1, hro1, hrb1, hfr1⟩ :=
    write_sector_ok' d 0 boot'.as_bytes hro hb'len
  obtain ⟨d2, hw2, hss2, hbs2, hro2, hrb2, hfr2⟩ :=
    write_sector_ok' d1 backup_sector boot'.as_bytes (by rw [hro1, hro])
      (by rw [hss1]; exact hb'len)
  set fsinfo' := fsinfo.set_free_count NF with hfsi
  have hflen' : fsinfo'.as_bytes.length = d2.sectorSize := by
    rw [hss2, hss1]
    show (writeBytesIn fsinfo.raw 488 (le32Bytes NF)).length = d.sectorSize
    rw [writeBytesIn_length _ _ _ (by simp [le32Bytes]; omega)]
    exact hflen
  obtain ⟨d3, hw3, hss3, hbs3, hro3, hrb3, hfr3⟩ :=
    write_sector_ok' d2 fsinfo_sector fsinfo'.as_bytes
      (by rw [hro2, hro1, hro]) hflen'
  obtain ⟨d4, hw4, hss4, hbs4, hro4, hrb4, hfr4⟩ :=
    write_sector_ok' d3 (d3.total_sectors - 1) (List.replicate d3.sectorSize 0)
      (by rw [hro3, hro2, hro1, hro]) (by simp)
  refine ⟨{ d4 with syncs := d4.syncs + 1 }, ?_, ?_⟩
  · unfold metadataPhase write_boot_sector write_backup_boot_sector write_fsinfo
      clear_checkpoint
    dsimp only
    rw [← hb', ← hNF, ← hfsi]
    simp only [hw1, exceptBind_ok, hw2, hw3, hw4]
    rfl
  · have hsync : ({ d4 with syncs := d4.syncs + 1 } : Dev).read_sector
        fsinfo_sector = d4.read_sector fsinfo_sector := rfl
    have htot3 : d3.total_sectors = d.total_sectors := by
      unfold Dev.total_sectors
      rw [hbs3, hbs2, hbs1, hss3, hss2, hss1]
    rw [hsync, hfr4 fsinfo_sector (by rw [htot3]; exact hcp), hrb3]
    show readLe32 (writeBytesIn fsinfo.raw 488 (le32Bytes NF)) 488 = _
    rw [readLe32_writeBytesIn _ _ _ (by omega) hNFlt, hNF, hres, hnf, hspc]

/-- A small concrete device for exercising the metadata phase: 100 sectors of
512 zero bytes, writable. -/
def c8Dev : Dev :=
  { bytes := fun _ => 0, byteSize := 51200, sectorSize := 512, ro := false,
    writes := 0, syncs := 0 }

def c8Boot : BootSector := ⟨List.replicate 512 0⟩

def c8Fsinfo : FSInfo := ⟨List.replicate 512 0⟩

def c8Sc : SizeCalculation :=
  { old_total_sectors := 80, new_total_sectors := 100, old_fat_size := 1,
    new_fat_size := 1, new_data_clusters := 90, new_free_clusters := 12,
    fat_needs_growth := false, fat_growth_sectors := 0,
    first_affected_cluster := 0, last_affected_cluster := 0 }

set_option maxRecDepth 4000 in
theorem metadataPhase_fsinfo_free_count_witness :
    ∃ d', metadataPhase c8Dev c8Boot c8Fsinfo c8Sc 6 1 = .ok d' ∧
      readLe32 (d'.read_sector 1) 488 =
        (if c8Fsinfo.free_count = FSInfo.UNKNOWN_FREE then FSInfo.UNKNOWN_FREE
         else min (c8Fsinfo.free_count +
           (c8Sc.new_data_clusters -
             (c8Sc.old_total_sectors - c8Boot.reserved_sectors -
               c8Boot.num_fats * c8Sc.old_fat_size) /
                 c8Boot.sectors_per_cluster))
           0xFFFFFFFF) :=
  metadataPhase_fsinfo_free_count c8Dev c8Boot c8Fsinfo c8Sc 6 1 rfl
    (by simp [c8Boot, c8Dev]) (by simp [c8Fsinfo, c8Dev]) (by decide)
    (by decide)

/-! ## C6: recovery-path errors of `resize_fat32` -/

set_option maxRecDepth 4000 in
/-- After a successful recovery read of the boot sector, a non-dry-run
`resize_fat32` is exactly the incomplete-resize check followed by the
size-mismatch gate and the main path. -/
theorem resize_fat32_reduce (opts : ResizeOptions) (dev : Dev)
    (boot : BootSector) (d1 : Dev) (hdry : opts.dry_run = false)
    (hread : read_boot_sector_for_recovery
      { dev with sectorSize := 512, ro := opts.dry_run } = .ok (boot, d1)) :
    resize_fat32 opts dev =
      match check_for_incomplete_resize d1 boot with
      | .error e => (.error e, d1)
      | .ok (some cp) =>
        if d1.total_sectors < cp.new_total_sectors then
          (.error (.ResizeSizeMismatch cp.phase.toByte), d1)
        else
          resize_after_resume_check opts d1 boot (some cp)
            (["Verified device is not mounted", "Opened device"] ++
              ["Read boot sector"] ++ ["Detected incomplete resize"])
      | .ok none =>
        resize_after_resume_check opts d1 boot none
          (["Verified device is not mounted", "Opened device"] ++
            ["Read boot sector"]) := by
  unfold resize_fat32
  dsimp only
  split
  · rename_i e heq
    rw [hread] at heq
    exact Except.noConfusion heq
  · rename_i b1 dd heq
    rw [hread] at heq
    obtain ⟨h1, h2⟩ := Prod.mk.inj (Except.ok.inj heq)
    subst h1
    subst h2
    rw [hdry, if_pos (show ¬ false = true by decide)]
    cases hc : check_for_incomplete_resize d1 boot with
    | error e => rfl
    | ok inc => cases inc <;> rfl

/-- C6 (amended).  In a non-dry-run resize: with an invalidated boot signature,
no room for a checkpoint gives `InvalidatedFilesystem`; a last sector whose
checkpoint parse *errors* (corrupted: CRC mismatch or bad phase byte)
propagates that error — `CheckpointCorrupted`, not `InvalidatedFilesystem` —
while a parse returning no checkpoint gives `InvalidatedFilesystem`.  And
whenever the incomplete-resize check does find a checkpoint (valid or invalid
signature) and the device's current sector count is below the checkpoint's
`new_total_sectors`, the resize fails with `ResizeSizeMismatch` carrying the
checkpoint's phase, with the byte store and the write and sync counters still
at their initial values. -/
theorem resize_recovery_error_paths (opts : ResizeOptions) (dev : Dev)
    (boot : BootSector) (d1 : Dev) (hdry : opts.dry_run = false)
    (hread : read_boot_sector_for_recovery
      { dev with sectorSize := 512, ro := opts.dry_run } = .ok (boot, d1)) :
    (¬ boot.is_signature_valid →
      (d1.total_sectors ≤ boot.total_sectors →
        resize_fat32 opts dev = (.error .InvalidatedFilesystem, d1)) ∧
      (∀ e, boot.total_sectors < d1.total_sectors →
        ResizeCheckpoint.from_bytes (d1.read_sector (d1.total_sectors - 1)) =
          .error e →
        resize_fat32 opts dev = (.error e, d1)) ∧
      (boot.total_sectors < d1.total_sectors →
        ResizeCheckpoint.from_bytes (d1.read_sector (d1.total_sectors - 1)) =
          .ok none →
        resize_fat32 opts dev = (.error .InvalidatedFilesystem, d1))) ∧
    (∀ cp, check_for_incomplete_resize d1 boot = .ok (some cp) →
      d1.total_sectors < cp.new_total_sectors →
      resize_fat32 opts dev =
        (.error (.ResizeSizeMismatch cp.phase.toByte), d1) ∧
      d1.bytes = dev.bytes ∧ d1.writes = dev.writes ∧ d1.syncs = dev.syncs) := by
  have hred := resize_fat32_reduce opts dev boot d1 hdry hread
  constructor
  · intro hsig
    refine ⟨?_, ?_, ?_⟩
    · intro hle
      have hchk : check_for_incomplete_resize d1 boot =
          .error .InvalidatedFilesystem := by
        unfold check_for_incomplete_resize
        rw [if_pos hsig, if_pos hle]
      rw [hred, hchk]
    · intro e hlt herr
      have hchk : check_for_incomplete_resize d1 boot = .error e := by
        unfold check_for_incomplete_resize
        rw [if_pos hsig, if_neg (by omega), herr]
      rw [hred, hchk]
    · intro hlt hnone
      have hchk : check_for_incomplete_resize d1 boot =
          .error .InvalidatedFilesystem := by
        unfold check_for_incomplete_resize
        rw [if_pos hsig, if_neg (by omega), hnone]
      rw [hred, hchk]
  · intro cp hchk hlt
    obtain ⟨hb, _, _, hw, hs⟩ := read_boot_preserves _ _ _ hread
    refine ⟨?_, hb, hw, hs⟩
    rw [hred, hchk]
    exact if_pos hlt

/-- A boot sector for the recovery path: valid FAT32 geometry (512-byte
sectors, 8 sectors per cluster, 32 reserved, 2 FATs, 2,000,000 total sectors,
FAT size 7813) with a zeroed (invalidated) boot signature. -/
def c6BootByte (i : Nat) : Nat :=
  if i = 12 then 0x02
  else if i = 13 then 8
  else if i = 14 then 0x20
  else if i = 16 then 2
  else if i = 21 then 0xF8
  else if i = 32 then 0x80 else if i = 33 then 0x84 else if i = 34 then 0x1E
  else if i = 36 then 0x85 else if i = 37 then 0x1E
  else if i = 44 then 2
  else if i = 48 then 1
  else if i = 50 then 6
  else 0

def c6Boot : BootSector := ⟨(List.range 512).map c6BootByte⟩

/-- The last sector of the device below: correct checkpoint magic and version,
phase byte 0, zero fields, but a stored CRC (0) that does not match the CRC32
of the first 28 bytes — a corrupted checkpoint. -/
def c6CpByte (j : Nat) : Nat :=
  if j = 0 then 0x46 else if j = 1 then 0x41 else if j = 2 then 0x54
  else if j = 3 then 0x33 else if j = 4 then 0x32 else if j = 5 then 0x52
  else if j = 6 then 0x53 else if j = 7 then 0x5A
  else if j = 8 then 1
  else 0

/-- A 2,000,001-sector device (one sector larger than the filesystem) holding
the invalidated boot sector at offset 0 and the corrupted checkpoint in its
last sector (byte offset 2,000,000 · 512 = 1,024,000,000). -/
def c6Dev : Dev :=
  { bytes := fun i =>
      if i < 512 then c6BootByte i
      else if 1024000000 ≤ i then c6CpByte (i - 1024000000)
      else 0,
    byteSize := 1024000512, sectorSize := 512, ro := false,
    writes := 0, syncs := 0 }


/-- `c6Dev` as `resize_fat32` opens it (512-byte sectors, read-write). -/
def c6Open : Dev := { c6Dev with sectorSize := 512, ro := false }

/-- Reading a byte range out of a device picks the store's bytes. -/
theorem read_bytes_at_getD (d : Dev) (off size i : Nat) (hi : i < size) :
    (d.read_bytes_at off size).getD i 0 = d.bytes (off + i) := by
  simp [Dev.read_bytes_at, List.getD_eq_getElem?_getD, List.getElem?_map,
    List.getElem?_range hi]

theorem c6_bytes_low (i : Nat) (hi : i < 512) : c6Dev.bytes i = c6BootByte i := by
  show (if i < 512 then c6BootByte i
    else if 1024000000 ≤ i then c6CpByte (i - 1024000000) else 0) = c6BootByte i
  rw [if_pos hi]

/-- Two lists of equal length agreeing under `getD` are equal. -/
theorem list_eq_of_getD (l l' : List Nat) (hl : l.length = l'.length)
    (h : ∀ i, i < l.length → l.getD i 0 = l'.getD i 0) : l = l' := by
  apply List.ext_getElem hl
  intro i h1 h2
  have hi := h i h1
  rw [List.getD_eq_getElem?_getD, List.getD_eq_getElem?_getD,
    List.getElem?_eq_getElem h1, List.getElem?_eq_getElem h2] at hi
  simpa using hi

set_option maxRecDepth 8000 in
/-- The first 512 of the 4096 recovery-read bytes are the boot sector bytes. -/
theorem c6_take512 :
    (Dev.read_bytes_at c6Open 0 MAX_SECTOR_SIZE).take 512 = c6Boot.raw := by
  apply list_eq_of_getD
  · simp [Dev.read_bytes_at, MAX_SECTOR_SIZE, c6Boot]
  · intro i hi
    have hi512 : i < 512 := by
      simpa [Dev.read_bytes_at, MAX_SECTOR_SIZE] using hi
    rw [List.getD_eq_getElem?_getD, List.getElem?_take_of_lt hi512,
      ← List.getD_eq_getElem?_getD,
      read_bytes_at_getD c6Open 0 MAX_SECTOR_SIZE i
        (by norm_num [MAX_SECTOR_SIZE]; omega)]
    show c6Dev.bytes (0 + i) = c6Boot.raw.getD i 0
    rw [Nat.zero_add, c6_bytes_low i hi512]
    simp [c6Boot, List.getD_eq_getElem?_getD, List.getElem?_map,
      List.getElem?_range hi512]

set_option maxRecDepth 8000 in
/-- Opening `c6Dev` for recovery succeeds: the boot sector parses (its 512-byte
sector size is valid and the invalidated signature is allowed), and the device
comes back with 512-byte sectors. -/
theorem c6_read_boot :
    read_boot_sector_for_recovery c6Open = .ok (c6Boot, c6Dev) := by
  have hlen : (Dev.read_bytes_at c6Open 0 MAX_SECTOR_SIZE).length = 4096 := by
    simp [Dev.read_bytes_at, MAX_SECTOR_SIZE]
  have hbps : (⟨Dev.read_bytes_at c6Open 0 MAX_SECTOR_SIZE⟩ :
      BootSector).bytes_per_sector = 512 := by
    show readLe16 (Dev.read_bytes_at c6Open 0 MAX_SECTOR_SIZE) 11 = 512
    unfold readLe16
    rw [read_bytes_at_getD c6Open 0 MAX_SECTOR_SIZE 11 (by norm_num [MAX_SECTOR_SIZE]),
      read_bytes_at_getD c6Open 0 MAX_SECTOR_SIZE 12 (by norm_num [MAX_SECTOR_SIZE])]
    show c6Dev.bytes (0 + 11) + 256 * c6Dev.bytes (0 + 12) = 512
    rw [c6_bytes_low (0 + 11) (by omega), c6_bytes_low (0 + 12) (by omega)]
    decide
  unfold read_boot_sector_for_recovery
  dsimp only
  split
  · rename_i e heq
    unfold BootSector.from_bytes at heq
    rw [if_neg (by rw [hlen]; omega)] at heq
    exact Except.noConfusion heq
  · rename_i boot1 heq
    unfold BootSector.from_bytes at heq
    rw [if_neg (by rw [hlen]; omega)] at heq
    have h1 := Except.ok.inj heq
    subst h1
    rw [hbps]
    rw [if_neg (show ¬ ¬ (VALID_SECTOR_SIZES.contains 512 = true) by decide)]
    split
    · rename_i e heq2
      unfold BootSector.from_bytes at heq2
      rw [if_neg (by rw [List.length_take, hlen]; omega)] at heq2
      exact Except.noConfusion heq2
    · rename_i boot2 heq2
      unfold BootSector.from_bytes at heq2
      rw [if_neg (by rw [List.length_take, hlen]; omega)] at heq2
      have h2 := Except.ok.inj heq2
      subst h2
      have hbootEq : (⟨(Dev.read_bytes_at c6Open 0 MAX_SECTOR_SIZE).take 512⟩ :
          BootSector) = c6Boot := congrArg BootSector.mk c6_take512
      rw [hbootEq,
        show validate_boot_sector_for_recovery c6Boot = .ok () from by decide]
      rfl

set_option maxRecDepth 8000 in
/-- C6 counterexample to the original claim: on `c6Dev` the boot signature is
invalid and the last sector does *not* parse as a valid checkpoint (its stored
CRC is wrong), yet the non-dry-run resize fails with `CheckpointCorrupted`,
not `InvalidatedFilesystem`. -/
theorem resize_invalid_signature_counterexample :
    c6Boot.is_signature_valid = false ∧
    ResizeCheckpoint.from_bytes (c6Dev.read_sector (c6Dev.total_sectors - 1)) =
      .error .CheckpointCorrupted ∧
    (resize_fat32 ⟨"dev", false, false⟩ c6Dev).1 = .error .CheckpointCorrupted ∧
    (resize_fat32 ⟨"dev", false, false⟩ c6Dev).1 ≠
      .error .InvalidatedFilesystem := by
  have hred := resize_fat32_reduce ⟨"dev", false, false⟩ c6Dev c6Boot c6Dev rfl
    c6_read_boot
  have hsig : ¬ c6Boot.is_signature_valid = true := by decide
  have htot : c6Boot.total_sectors < c6Dev.total_sectors := by decide
  have hfb : ResizeCheckpoint.from_bytes
      (c6Dev.read_sector (c6Dev.total_sectors - 1)) =
      .error .CheckpointCorrupted := by decide
  have hchk : check_for_incomplete_resize c6Dev c6Boot =
      .error .CheckpointCorrupted := by
    unfold check_for_incomplete_resize
    rw [if_pos hsig, if_neg (by omega), hfb]
  refine ⟨by decide, hfb, ?_, ?_⟩
  · rw [hred, hchk]
  · rw [hred, hchk]
    decide

set_option maxRecDepth 8000 in
theorem resize_recovery_error_paths_witness :
    resize_fat32 ⟨"dev", false, false⟩ c6Dev =
      (.error .CheckpointCorrupted, c6Dev) :=
  ((resize_recovery_error_paths ⟨"dev", false, false⟩ c6Dev c6Boot c6Dev rfl
      c6_read_boot).1 (by decide)).2.1 .CheckpointCorrupted (by decide)
    (by decide)

end FAT32
